import Mathlib

/-!
# Latency-benchmarking central (`central/src/main.c`)

A shallow embedding of the controller's global state and of its callbacks
(`device_found`, `connected`, `disconnected`, `read_func_cb_sc2`,
`notify_func`, the two discovery callbacks and the GPIO callback), followed by
theorems about target/scenario rotation, the retry filter and the sample
buffers.

Conventions of the embedding:

* every global variable of `main.c` is a field of `State` with the same name;
* a C `int` is an `Int`; an increment that would leave the `int` range is a
  fault (`Fault.int_overflow`), as are an array access outside the array, the
  read of a 32-bit value from a shorter payload and `bt_uuid_cmp` on the null
  `discover_params.uuid`;
* a callback is a function `State → … → Except Fault State`; the values
  returned by the transport and by the timer are arguments of the callback;
* calls into the transport and lines written by `printk` are appended to the
  `calls` and `uart` logs of the state, in program order;
* `debug` is the constant `false`, so the guarded `printk`s are omitted.
-/

set_option linter.unusedVariables false

namespace Central

/-! ## Constants and elementary types -/

/-- The ways in which a callback leaves the behaviour defined by the C source. -/
inductive Fault where
  | address_out_of_bounds
  | buffer_out_of_bounds
  | int_overflow
  | short_payload
  | null_uuid
  deriving DecidableEq, Repr

/-- Peripherals P1 P2 P3 P4 (`addressArr`, main.c 27-32). -/
def addressArr : List String :=
  ["C8:08:67:10:6A:25", "F7:3E:E2:EA:4B:AC", "F5:E6:A8:F0:CC:21", "EE:FC:B1:9C:E3:A2"]

/-- The macro `n_array`: `sizeof(addressArr) / sizeof(const char *)`, a `size_t`. -/
def n_array : Nat := addressArr.length

/-- The global `connTryMax`, which is never assigned after its initialiser. -/
def connTryMax : Int := 50

/-- The macro `connectionMaxCount`. -/
def connectionMaxCount : Int := 10
/-- The macro `readMaxCount`. -/
def readMaxCount : Int := 10
/-- The macro `indicateMaxCount`. -/
def indicateMaxCount : Int := 10
/-- The macro `notifyMaxCount`. -/
def notifyMaxCount : Int := 10

/-- The largest value of a C `int` on the 32-bit target. -/
def INT_MAX : Int := 2147483647

/-- Zephyr's `BT_GAP_ADV_TYPE_ADV_IND` (the header is not part of the sources). -/
def BT_GAP_ADV_TYPE_ADV_IND : Nat := 0
/-- Zephyr's `BT_GAP_ADV_TYPE_ADV_DIRECT_IND`. -/
def BT_GAP_ADV_TYPE_ADV_DIRECT_IND : Nat := 1
/-- Zephyr's `BT_ATT_FIRST_ATTTRIBUTE_HANDLE`. -/
def BT_ATT_FIRST_ATTTRIBUTE_HANDLE : Nat := 1
/-- Zephyr's `BT_ATT_LAST_ATTTRIBUTE_HANDLE`. -/
def BT_ATT_LAST_ATTTRIBUTE_HANDLE : Nat := 65535
/-- The errno value `EALREADY` of Zephyr's C library. -/
def EALREADY : Int := 120

/-- The UUID values that are ever copied into the global `uuid`. -/
inductive Uuid where
  | zero
  | READ_WRITE_SERVICE
  | PERIPHERAL_WRITE
  | PERIPHERAL_READ
  | PERIPHERAL_INDICATE
  | PERIPHERAL_NOTIFY
  | GATT_CCC
  deriving DecidableEq, Repr

/-- The values of `discover_params.type`. -/
inductive DiscoverType where
  | zero
  | PRIMARY
  | CHARACTERISTIC
  | DESCRIPTOR
  deriving DecidableEq, Repr

/-- The values of `discover_params.func`. -/
inductive DiscoverFunc where
  | null
  | discover_write_characteristic_func
  | discover_func
  deriving DecidableEq, Repr

/-- The fields of `struct bt_gatt_discover_params` that `main.c` assigns.
`uuid_set` tells whether `discover_params.uuid` points at the global `uuid`
(`true`) or is null (`false`, after the `memset`). -/
structure DiscoverParams where
  uuid_set : Bool
  func : DiscoverFunc
  start_handle : Nat
  end_handle : Nat
  type : DiscoverType
  deriving DecidableEq, Repr

/-- The values of `subscribe_params.value`. -/
inductive CccValue where
  | zero
  | NOTIFY
  | INDICATE
  deriving DecidableEq, Repr

/-- The fields of `struct bt_gatt_subscribe_params` that `main.c` assigns. -/
structure SubscribeParams where
  notify_set : Bool
  value : CccValue
  value_handle : Nat
  ccc_handle : Nat
  deriving DecidableEq, Repr

/-- One line written by `SendUartData`: the three `printk` arguments. -/
structure Record where
  address : String
  scenario : Int
  time : Nat
  deriving DecidableEq, Repr

/-- Calls into the transport, the timer and the kernel, as they are logged. -/
inductive Call where
  | bt_le_scan_start
  | bt_le_scan_stop
  | bt_conn_le_create (addr_str : String)
  | bt_conn_unref (conn : Option Nat)
  | bt_conn_disconnect (conn : Option Nat)
  | bt_gatt_discover (conn : Option Nat) (params : DiscoverParams) (uuid : Uuid)
  | bt_gatt_read (conn : Option Nat)
  | bt_gatt_write (conn : Option Nat) (handle : Nat) (data : Int)
  | bt_gatt_subscribe (conn : Option Nat) (params : SubscribeParams)
  | timing_start
  | k_msleep (ms : Nat)
  deriving DecidableEq, Repr

/-- The attribute handed to a discovery callback: `attr->handle` and the value
of `bt_gatt_attr_value_handle(attr)`. -/
structure Attr where
  handle : Nat
  value_handle : Nat
  deriving DecidableEq, Repr

/-- The timer's conversion functions, which belong to the platform:
`timing_cycles_get(&start, &end)` and `timing_cycles_to_ns(cycles)`. -/
structure Timing where
  timing_cycles_get : Nat → Nat → Nat
  timing_cycles_to_ns : Nat → Nat

/-- The value `timing_cycles_to_ns(timing_cycles_get(&start_time, &end_time))`
as it is stored in a `uint64_t`. -/
def Timing.elapsed (tm : Timing) (start_time end_time : Nat) : Nat :=
  tm.timing_cycles_to_ns (tm.timing_cycles_get start_time end_time) % 2 ^ 64

/-- A sample buffer `uint64_t buf[10]`. -/
abbrev Samples := Fin 10 → Nat

/-- The global variables of `main.c`, the UART output and the call log. -/
structure State where
  connTry : Int
  addressIdx : Int
  scenarioIdx : Int
  write_handle_found : Bool
  write_handle : Int
  start_time : Nat
  end_time : Nat
  connectionCount : Int
  connectionTimes : Samples
  readCount : Int
  readTimes : Samples
  indicateCount : Int
  indicateTimes : Samples
  ackIndicate : Bool
  notifyCount : Int
  notifyTimes : Samples
  validNotify : Bool
  default_conn : Option Nat
  uuid : Uuid
  discover_params : DiscoverParams
  subscribe_params : SubscribeParams
  uart : List Record
  calls : List Call

/-- The state after static initialisation. -/
def init : State where
  connTry := 0
  addressIdx := 0
  scenarioIdx := 1
  write_handle_found := false
  write_handle := -1
  start_time := 0
  end_time := 0
  connectionCount := 0
  connectionTimes := fun _ => 0
  readCount := 0
  readTimes := fun _ => 0
  indicateCount := 0
  indicateTimes := fun _ => 0
  ackIndicate := false
  notifyCount := 0
  notifyTimes := fun _ => 0
  validNotify := false
  default_conn := none
  uuid := Uuid.zero
  discover_params := ⟨false, DiscoverFunc.null, 0, 0, DiscoverType.zero⟩
  subscribe_params := ⟨false, CccValue.zero, 0, 0⟩
  uart := []
  calls := []

/-! ## C-level helpers -/

/-- The increment `x++` / `x += 1` of an `int`; overflow is undefined. -/
def int_inc (x : Int) : Except Fault Int :=
  if x < INT_MAX then Except.ok (x + 1) else Except.error Fault.int_overflow

/-- Conversion of an `int` to the 32-bit `size_t`, as done by the comparisons
`addressIdx >= n_array` and `i < size`. -/
def size_t_of_int (x : Int) : Nat := (x % 2 ^ 32).toNat

/-- The read `addressArr[i]`. -/
def address_at (i : Int) : Except Fault String :=
  if 0 ≤ i then
    match addressArr.get? i.toNat with
    | some a => Except.ok a
    | none => Except.error Fault.address_out_of_bounds
  else Except.error Fault.address_out_of_bounds

/-- The write `buf[i] = v` into a ten-element buffer. -/
def buf_write (buf : Samples) (i : Int) (v : Nat) : Except Fault Samples :=
  if h : 0 ≤ i ∧ i < 10 then
    Except.ok (Function.update buf ⟨i.toNat, by omega⟩ (v % 2 ^ 64))
  else Except.error Fault.buffer_out_of_bounds

/-- The libc function `strncmp` on strings without embedded NUL. -/
def strncmp : List Char → List Char → Nat → Int
  | _, _, 0 => 0
  | [], [], _ + 1 => 0
  | [], b :: _, _ + 1 => -(b.toNat : Int)
  | a :: _, [], _ + 1 => (a.toNat : Int)
  | a :: as, b :: bs, n + 1 =>
    if a = b then strncmp as bs n else (a.toNat : Int) - (b.toNat : Int)

/-- The value `sys_le32_to_cpu(*(uint32_t *)data)`: the first four bytes, little endian. -/
def sys_le32 : List Nat → Except Fault Nat
  | b0 :: b1 :: b2 :: b3 :: _ =>
    Except.ok (b0 % 256 + 256 * (b1 % 256) + 65536 * (b2 % 256) + 16777216 * (b3 % 256))
  | _ => Except.error Fault.short_payload

/-- The body of the loop of `SendUartData` from index `i`, for `n` more
iterations: each iteration reads `addressArr[addressIdx]` and `times[i]`. -/
def SendUartData_loop (addressIdx scenarioIdx : Int) (times : Samples) :
    Nat → Nat → Except Fault (List Record)
  | _, 0 => Except.ok []
  | i, n + 1 =>
    if h : i < 10 then
      match address_at addressIdx with
      | Except.error f => Except.error f
      | Except.ok a =>
        match SendUartData_loop addressIdx scenarioIdx times (i + 1) n with
        | Except.error f => Except.error f
        | Except.ok rest => Except.ok (⟨a, scenarioIdx, times ⟨i, h⟩⟩ :: rest)
    else Except.error Fault.buffer_out_of_bounds

/-- Function `SendUartData(times, size)` (main.c 164-171). -/
def SendUartData (s : State) (times : Samples) (size : Int) : Except Fault State := do
  let lines ← SendUartData_loop s.addressIdx s.scenarioIdx times 0 (size_t_of_int size)
  pure { s with uart := s.uart ++ lines }

/-- Function `start_scan()` (main.c 246-265); the result of `bt_le_scan_start` only
selects a debug message. -/
def start_scan (s : State) : State :=
  { s with calls := s.calls ++ [Call.bt_le_scan_start] }

/-- The statement `addressIdx += 1;`. -/
def target_inc (s : State) : Except Fault State := do
  let a ← int_inc s.addressIdx
  pure { s with addressIdx := a }

/-- The statement `if (addressIdx >= n_array) { addressIdx = 0; scenarioIdx++; }`
(main.c 357-361, 416-420, 731-735). -/
def target_wrap (s : State) : Except Fault State :=
  if size_t_of_int s.addressIdx ≥ n_array then do
    let sc ← int_inc s.scenarioIdx
    pure { s with addressIdx := 0, scenarioIdx := sc }
  else pure s

/-- The statement `if (addressIdx >= n_array) { addressIdx = 0; scenarioIdx = 1; }`
(main.c 452-456). -/
def target_wrap_sc4 (s : State) : Except Fault State :=
  if size_t_of_int s.addressIdx ≥ n_array then
    pure { s with addressIdx := 0, scenarioIdx := 1 }
  else pure s

/-- The rotation step of scenarios 1 to 3:
`addressIdx += 1; if (addressIdx >= n_array) { addressIdx = 0; scenarioIdx++; }`. -/
def advance_target (s : State) : Except Fault State := do
  let s1 ← target_inc s
  target_wrap s1

/-- The rotation step of scenario 4:
`addressIdx += 1; if (addressIdx >= n_array) { addressIdx = 0; scenarioIdx = 1; }`. -/
def advance_target_sc4 (s : State) : Except Fault State := do
  let s1 ← target_inc s
  target_wrap_sc4 s1

/-! ## The callbacks -/

/-- The mismatch branch of `device_found` (main.c 212-219): retry, then skip
to the next peer. -/
def device_found_retry (s : State) : Except Fault State := do
  let c ← int_inc s.connTry
  if c ≥ connTryMax then do
    let a ← int_inc s.addressIdx
    pure { s with connTry := 0, addressIdx := a }
  else pure { s with connTry := c }

/-- The match branch of `device_found` (main.c 222-242). -/
def device_found_connect (s : State) (addr_str : String) (now : Nat)
    (scan_stop_ret create_ret : Int) (new_conn : Nat) : State :=
  let s1 : State := { s with connTry := 0, calls := s.calls ++ [Call.bt_le_scan_stop] }
  if scan_stop_ret ≠ 0 then s1
  else
    let s2 : State :=
      if s1.scenarioIdx = 1 then
        { s1 with start_time := now, calls := s1.calls ++ [Call.timing_start] }
      else s1
    let s3 : State := { s2 with calls := s2.calls ++ [Call.bt_conn_le_create addr_str] }
    if create_ret ≠ 0 then start_scan s3
    else { s3 with default_conn := some new_conn }

/-- Function `device_found` (main.c 182-243).  `addr_str` is the string written by
`bt_addr_le_to_str`, `now` the value of `timing_counter_get()`,
`scan_stop_ret` the result of `bt_le_scan_stop()`, `create_ret` the result of
`bt_conn_le_create` and `new_conn` the connection it stores in `default_conn`
when it succeeds. -/
def device_found (s : State) (addr_str : String) (rssi : Int) (type : Nat) (now : Nat)
    (scan_stop_ret create_ret : Int) (new_conn : Nat) : Except Fault State :=
  if s.default_conn ≠ none then pure s
  else if type ≠ BT_GAP_ADV_TYPE_ADV_IND ∧ type ≠ BT_GAP_ADV_TYPE_ADV_DIRECT_IND then pure s
  else if rssi < -90 then pure s
  else do
    let address ← address_at s.addressIdx
    if strncmp address.toList addr_str.toList 17 ≠ 0 then device_found_retry s
    else pure (device_found_connect s addr_str now scan_stop_ret create_ret new_conn)

/-- The discovery request at the end of `connected` (main.c 677-701); the
result of `bt_gatt_discover` only selects a debug message. -/
def connected_discover (s : State) (conn : Option Nat) : State :=
  let dp : DiscoverParams :=
    { uuid_set := true
      func := if s.write_handle_found = false
              then DiscoverFunc.discover_write_characteristic_func
              else DiscoverFunc.discover_func
      start_handle := BT_ATT_FIRST_ATTTRIBUTE_HANDLE
      end_handle := BT_ATT_LAST_ATTTRIBUTE_HANDLE
      type := DiscoverType.PRIMARY }
  { s with uuid := Uuid.READ_WRITE_SERVICE, discover_params := dp,
           calls := s.calls ++ [Call.bt_gatt_discover conn dp Uuid.READ_WRITE_SERVICE] }

/-- Function `connected` (main.c 639-702).  `now` is the value of `timing_counter_get()`. -/
def connected (tm : Timing) (s : State) (conn : Option Nat) (err : Nat) (now : Nat) :
    Except Fault State := do
  let s1 ←
    if s.scenarioIdx = 1 then do
      let buf ← buf_write s.connectionTimes s.connectionCount (tm.elapsed s.start_time now)
      pure { s with end_time := now, connectionTimes := buf }
    else pure s
  if err ≠ 0 then
    pure (start_scan
      { s1 with default_conn := none,
                calls := s1.calls ++ [Call.bt_conn_unref s1.default_conn] })
  else if conn ≠ s1.default_conn then pure s1
  else pure (connected_discover s1 conn)

/-- The scenario 1 part of `disconnected` (main.c 720-740). -/
def disconnected_sc1 (s : State) : Except Fault State := do
  let c ← int_inc s.connectionCount
  let s1 : State := { s with connectionCount := c }
  let s3 ←
    if c ≥ connectionMaxCount then do
      let s2 ← SendUartData { s1 with connectionCount := 0 } s1.connectionTimes
        connectionMaxCount
      advance_target s2
    else pure s1
  pure { s3 with calls := s3.calls ++ [Call.k_msleep 100] }

/-- Function `disconnected` (main.c 704-745). -/
def disconnected (s : State) (conn : Option Nat) (reason : Nat) : Except Fault State :=
  if conn ≠ s.default_conn then pure s
  else do
    let s1 : State :=
      { s with default_conn := none, calls := s.calls ++ [Call.bt_conn_unref s.default_conn] }
    let s2 ← if s1.scenarioIdx = 1 then disconnected_sc1 s1 else pure s1
    pure (start_scan { s2 with validNotify := false })

/-- Function `read` (main.c 303-320); the result of `bt_gatt_read` only selects a
debug message. -/
def read (s : State) (conn : Option Nat) : State :=
  { s with calls := s.calls ++ [Call.bt_gatt_read conn] }

/-- Function `read_func_cb_sc2` (main.c 322-370).  `now_end` is the timer value read on
entry, `now_start` the one read after the sleep. -/
def read_func_cb_sc2 (tm : Timing) (s : State) (conn : Option Nat) (err : Nat)
    (data : Option (List Nat)) (now_end now_start : Nat) : Except Fault State := do
  let buf ← buf_write s.readTimes s.readCount (tm.elapsed s.start_time now_end)
  let s1 : State := { s with end_time := now_end, readTimes := buf }
  let c ← int_inc s1.readCount
  let s2 : State := { s1 with readCount := c }
  let s5 ←
    if c ≥ readMaxCount then do
      let s3 ← SendUartData { s2 with readCount := 0 } s2.readTimes readMaxCount
      let s4 ← target_inc s3
      target_wrap { s4 with calls := s4.calls ++ [Call.bt_conn_disconnect conn] }
    else pure s2
  pure (read { s5 with start_time := now_start,
                       calls := s5.calls ++ [Call.k_msleep 100] } conn)

/-- The counting part of the scenario 3 block (main.c 405-425), guarded by the
inner `if (scenarioIdx == 3)`. -/
def notify_func_sc3_count (s : State) (conn : Option Nat) : Except Fault State :=
  if s.scenarioIdx = 3 then do
    let c ← int_inc s.indicateCount
    let s2 : State := { s with indicateCount := c }
    if c ≥ indicateMaxCount then do
      let s3 ← SendUartData { s2 with indicateCount := 0 } s2.indicateTimes indicateMaxCount
      let s4 ← advance_target s3
      pure { s4 with calls := s4.calls ++ [Call.bt_conn_disconnect conn] }
    else pure s2
  else pure s

/-- The scenario 3 block of `notify_func` (main.c 388-428), entered with
`scenarioIdx == 3`. -/
def notify_func_sc3 (s : State) (conn : Option Nat) (data_raw : Nat) : Except Fault State :=
  if s.ackIndicate = false then pure { s with ackIndicate := true }
  else do
    let buf ← buf_write s.indicateTimes s.indicateCount data_raw
    let s5 ← notify_func_sc3_count { s with indicateTimes := buf } conn
    pure { s5 with ackIndicate := false }

/-- The scenario 4 block of `notify_func` (main.c 430-462), entered with
`scenarioIdx == 4`. -/
def notify_func_sc4 (tm : Timing) (s : State) (conn : Option Nat) (now : Nat) :
    Except Fault State :=
  if s.validNotify = true then do
    let buf ← buf_write s.notifyTimes s.notifyCount (tm.elapsed s.start_time now)
    let s1 : State := { s with end_time := now, notifyTimes := buf, validNotify := false }
    let c ← int_inc s1.notifyCount
    let s2 : State := { s1 with notifyCount := c }
    if c ≥ notifyMaxCount then do
      let s3 ← SendUartData { s2 with notifyCount := 0 } s2.notifyTimes notifyMaxCount
      let s4 ← advance_target_sc4 s3
      pure { s4 with calls := s4.calls ++ [Call.bt_conn_disconnect conn] }
    else pure s2
  else pure s

/-- Function `notify_func` (main.c 372-464).  `data` is the delivered value (`none` for
the null pointer of an unsubscription), `now` the value of
`timing_counter_get()`; `params` is the global `subscribe_params`. -/
def notify_func (tm : Timing) (s : State) (conn : Option Nat) (data : Option (List Nat))
    (now : Nat) : Except Fault State :=
  match data with
  | none =>
    pure { s with subscribe_params := { s.subscribe_params with value_handle := 0 } }
  | some bytes => do
    let data_raw ← sys_le32 bytes
    let s1 ← if s.scenarioIdx = 3 then notify_func_sc3 s conn data_raw else pure s
    if s1.scenarioIdx = 4 then notify_func_sc4 tm s1 conn now else pure s1

/-- Function `writeScenarioIdx` (main.c 281-301); `write_ret` is the result of
`bt_gatt_write`. -/
def writeScenarioIdx (s : State) (conn : Option Nat) (handle : Nat) (write_ret : Int) : State :=
  let s1 : State :=
    { s with calls := s.calls ++ [Call.bt_gatt_write conn handle s.scenarioIdx] }
  if write_ret ≠ 0 then
    { s1 with calls := s1.calls ++ [Call.bt_conn_disconnect conn] }
  else s1

/-- The value of `bt_uuid_cmp(discover_params.uuid, u) == 0`. -/
def discover_uuid_is (s : State) (u : Uuid) : Except Fault Bool :=
  if s.discover_params.uuid_set then pure (decide (s.uuid = u))
  else Except.error Fault.null_uuid

/-- The last branch of the discovery chain (main.c 521-536, 564-579):
subscribe and, unless that failed, write the scenario to the peripheral. -/
def discover_subscribe_ccc (s : State) (conn : Option Nat) (attr : Attr) (ccc : CccValue)
    (subscribe_ret write_ret : Int) : State :=
  let sp : SubscribeParams :=
    { s.subscribe_params with notify_set := true, value := ccc, ccc_handle := attr.handle }
  let s1 : State :=
    { s with subscribe_params := sp, calls := s.calls ++ [Call.bt_gatt_subscribe conn sp] }
  if subscribe_ret ≠ 0 ∧ subscribe_ret ≠ -EALREADY then s1
  else writeScenarioIdx s1 conn (s1.write_handle % 65536).toNat write_ret

/-- The discovery chain shared by scenarios 3 and 4 in `discover_func`
(main.c 496-537 and 539-580): `char_uuid` and `ccc` are the characteristic
and the subscription kind of the scenario. -/
def discover_subscribe (s : State) (conn : Option Nat) (attr : Attr) (char_uuid : Uuid)
    (ccc : CccValue) (subscribe_ret write_ret : Int) : Except Fault State := do
  let is_service ← discover_uuid_is s Uuid.READ_WRITE_SERVICE
  if is_service then
    let dp : DiscoverParams :=
      { s.discover_params with uuid_set := true, start_handle := (attr.handle + 1) % 65536,
                               type := DiscoverType.CHARACTERISTIC }
    pure { s with uuid := char_uuid, discover_params := dp,
                  calls := s.calls ++ [Call.bt_gatt_discover conn dp char_uuid] }
  else do
    let is_char ← discover_uuid_is s char_uuid
    if is_char then
      let dp : DiscoverParams :=
        { s.discover_params with uuid_set := true, start_handle := (attr.handle + 2) % 65536,
                                 type := DiscoverType.DESCRIPTOR }
      pure
        { s with uuid := Uuid.GATT_CCC, discover_params := dp,
                 subscribe_params := { s.subscribe_params with value_handle := attr.value_handle },
                 calls := s.calls ++ [Call.bt_gatt_discover conn dp Uuid.GATT_CCC] }
    else pure (discover_subscribe_ccc s conn attr ccc subscribe_ret write_ret)

/-- The scenario 2 and scenario 1 statements at the head of `discover_func`
(main.c 481-494). -/
def discover_func_head (s : State) (conn : Option Nat) (now : Nat) : State :=
  let s1 : State :=
    if s.scenarioIdx = 2 then
      read { s with start_time := now, calls := s.calls ++ [Call.timing_start] } conn
    else s
  if s1.scenarioIdx = 1 then
    { s1 with calls := s1.calls ++ [Call.bt_conn_disconnect conn] }
  else s1

/-- Function `discover_func` (main.c 466-583).  `attr` is `none` for the null
attribute; `now` is the value of `timing_counter_get()`, `subscribe_ret` and
`write_ret` the results of `bt_gatt_subscribe` and `bt_gatt_write`. -/
def discover_func (s : State) (conn : Option Nat) (attr : Option Attr) (now : Nat)
    (subscribe_ret write_ret : Int) : Except Fault State :=
  match attr with
  | none =>
    pure { s with discover_params := ⟨false, DiscoverFunc.null, 0, 0, DiscoverType.zero⟩ }
  | some a =>
    let s2 : State := discover_func_head s conn now
    if s2.scenarioIdx = 3 then
      discover_subscribe s2 conn a Uuid.PERIPHERAL_INDICATE CccValue.INDICATE
        subscribe_ret write_ret
    else if s2.scenarioIdx = 4 then
      discover_subscribe s2 conn a Uuid.PERIPHERAL_NOTIFY CccValue.NOTIFY
        subscribe_ret write_ret
    else pure s2

/-- Function `discover_write_characteristic_func` (main.c 585-637). -/
def discover_write_characteristic_func (s : State) (conn : Option Nat) (attr : Option Attr) :
    Except Fault State :=
  match attr with
  | none =>
    pure { s with discover_params := ⟨false, DiscoverFunc.null, 0, 0, DiscoverType.zero⟩ }
  | some a =>
    if s.write_handle_found = false then do
      let is_service ← discover_uuid_is s Uuid.READ_WRITE_SERVICE
      if is_service then
        let dp : DiscoverParams :=
          { s.discover_params with uuid_set := true, start_handle := (a.handle + 1) % 65536,
                                   type := DiscoverType.CHARACTERISTIC }
        pure { s with uuid := Uuid.PERIPHERAL_WRITE, discover_params := dp,
                      calls := s.calls ++
                        [Call.bt_gatt_discover conn dp Uuid.PERIPHERAL_WRITE] }
      else
        let dp : DiscoverParams :=
          { uuid_set := true
            func := DiscoverFunc.discover_func
            start_handle := BT_ATT_FIRST_ATTTRIBUTE_HANDLE
            end_handle := BT_ATT_LAST_ATTTRIBUTE_HANDLE
            type := DiscoverType.PRIMARY }
        pure { s with write_handle := (a.handle : Int) + 1, write_handle_found := true,
                      uuid := Uuid.READ_WRITE_SERVICE, discover_params := dp,
                      calls := s.calls ++
                        [Call.bt_gatt_discover conn dp Uuid.READ_WRITE_SERVICE] }
    else pure s

/-- Function `gpio1pinCallback` (main.c 137-147); `now` is the value of
`timing_counter_get()`. -/
def gpio1pinCallback (s : State) (now : Nat) : State :=
  { s with validNotify := true, start_time := now, calls := s.calls ++ [Call.timing_start] }

/-- Function `write_func_cb` (main.c 267-279): only debug output. -/
def write_func_cb (s : State) (err : Nat) : State := s

/-! ## Events and runs -/

/-- One callback invocation together with the values the platform returns
during it. -/
inductive Event where
  | device_found (addr_str : String) (rssi : Int) (type : Nat) (now : Nat)
      (scan_stop_ret create_ret : Int) (new_conn : Nat)
  | connected (conn : Option Nat) (err : Nat) (now : Nat)
  | disconnected (conn : Option Nat) (reason : Nat)
  | read_func_cb_sc2 (conn : Option Nat) (err : Nat) (data : Option (List Nat))
      (now_end now_start : Nat)
  | notify_func (conn : Option Nat) (data : Option (List Nat)) (now : Nat)
  | discover_func (conn : Option Nat) (attr : Option Attr) (now : Nat)
      (subscribe_ret write_ret : Int)
  | discover_write_characteristic_func (conn : Option Nat) (attr : Option Attr)
  | gpio1pinCallback (now : Nat)
  | write_func_cb (err : Nat)

/-- The callback that an event invokes. -/
def step (tm : Timing) (s : State) : Event → Except Fault State
  | Event.device_found addr_str rssi type now scan_stop_ret create_ret new_conn =>
    device_found s addr_str rssi type now scan_stop_ret create_ret new_conn
  | Event.connected conn err now => connected tm s conn err now
  | Event.disconnected conn reason => disconnected s conn reason
  | Event.read_func_cb_sc2 conn err data now_end now_start =>
    read_func_cb_sc2 tm s conn err data now_end now_start
  | Event.notify_func conn data now => notify_func tm s conn data now
  | Event.discover_func conn attr now subscribe_ret write_ret =>
    discover_func s conn attr now subscribe_ret write_ret
  | Event.discover_write_characteristic_func conn attr =>
    discover_write_characteristic_func s conn attr
  | Event.gpio1pinCallback now => pure (gpio1pinCallback s now)
  | Event.write_func_cb err => pure (write_func_cb s err)

/-- The callbacks of a list of events, one after the other; a fault ends the run. -/
def run (tm : Timing) : State → List Event → Except Fault State
  | s, [] => Except.ok s
  | s, e :: es => do
    let s1 ← step tm s e
    run tm s1 es

/-! ## Specification vocabulary -/

/-- The lines of one flush: one record per cell of the buffer, in index order. -/
def flush_records (address : String) (scenario : Int) (times : Samples) : List Record :=
  List.ofFn fun i => ⟨address, scenario, times i⟩

/-- Every write cursor is a valid index of its buffer. -/
def CursorsInRange (s : State) : Prop :=
  (0 ≤ s.connectionCount ∧ s.connectionCount < connectionMaxCount) ∧
  (0 ≤ s.readCount ∧ s.readCount < readMaxCount) ∧
  (0 ≤ s.indicateCount ∧ s.indicateCount < indicateMaxCount) ∧
  (0 ≤ s.notifyCount ∧ s.notifyCount < notifyMaxCount)

/-- Outside scenario 4 (and beyond) the notify buffer is empty. -/
def NotifyIdle (s : State) : Prop := s.scenarioIdx ≤ 3 → s.notifyCount = 0

/-- The target cursor indexes `addressArr`. -/
def TargetInRange (s : State) : Prop := 0 ≤ s.addressIdx ∧ s.addressIdx < (n_array : Int)

/-- The scenario cursor is one of the four scenario identifiers. -/
def ScenarioValid (s : State) : Prop := 1 ≤ s.scenarioIdx ∧ s.scenarioIdx ≤ 4

/-- The cyclic successor of a scenario identifier. -/
def next_scenario (k : Int) : Int := if k = 4 then 1 else k + 1

/-- The outcome of a computation satisfies `Q` when it is a value and `E`
when it is a fault. -/
def wp {α : Type} (x : Except Fault α) (Q : α → Prop) (E : Fault → Prop) : Prop :=
  match x with
  | Except.ok a => Q a
  | Except.error f => E f

/-- The records written to the UART between the states `s` and `s'`. -/
def new_records (s s' : State) : List Record := s'.uart.drop s.uart.length

/-- What every callback guarantees about the sample cursors and about the
records it writes. -/
def StepPost (s s' : State) : Prop :=
  (CursorsInRange s → CursorsInRange s') ∧
  (NotifyIdle s → NotifyIdle s') ∧
  s'.uart = s.uart ++ new_records s s' ∧
  (ScenarioValid s → ∀ r ∈ new_records s s', 1 ≤ r.scenario ∧ r.scenario ≤ 4)

/-- The scenario cursor stays a scenario identifier and either keeps its value
or moves to the cyclic successor. -/
def ScenarioPost (s s' : State) : Prop :=
  ScenarioValid s' ∧
    (s'.scenarioIdx = s.scenarioIdx ∨ s'.scenarioIdx = next_scenario s.scenarioIdx)

/-- The event is a read completion (`read_func_cb_sc2`). -/
def Event.is_read_completion : Event → Prop
  | Event.read_func_cb_sc2 _ _ _ _ _ => True
  | _ => False

/-- The event is a discovered-peer report (`device_found`). -/
def Event.is_device_found : Event → Prop
  | Event.device_found _ _ _ _ _ _ _ => True
  | _ => False

/-- A timer for concrete runs: cycles are the difference of the two readings
and one cycle lasts one nanosecond. -/
def unit_timing : Timing := ⟨fun start_time end_time => end_time - start_time, fun cycles => cycles⟩

/-- A connectable, strong advertisement of a device that is none of the four
peripherals. -/
def stranger_found : Event :=
  Event.device_found "AA:BB:CC:DD:EE:FF (random)" (-40) BT_GAP_ADV_TYPE_ADV_IND 0 0 0 1

/-- A read completion without data. -/
def read_completed : Event := Event.read_func_cb_sc2 (some 1) 0 none 5 0

/-- The rotation step that the completing callback of the current scenario
runs when its buffer is full: `disconnected` (scenario 1), `read_func_cb_sc2`
(scenario 2) and the scenario 3 block of `notify_func` use `advance_target`,
the scenario 4 block of `notify_func` uses `advance_target_sc4`. -/
def completion_advance (s : State) : Except Fault State :=
  if s.scenarioIdx = 4 then advance_target_sc4 s else advance_target s

/-- A state in scenario 4 at the last peer, armed, with nine notify samples. -/
def sc4_last_sample : State :=
  { init with scenarioIdx := 4, addressIdx := 3, notifyCount := 9, validNotify := true }

/-- The fault of an outcome, if it is one. -/
def fault_of (x : Except Fault State) : Option Fault :=
  match x with
  | Except.error f => some f
  | Except.ok _ => none

/-- The target cursor, the scenario cursor and the retry counter. -/
def rotation (s : State) : Int × Int × Int := (s.addressIdx, s.scenarioIdx, s.connTry)

/-- A discovered-peer report: the arguments of `device_found` together with
the values the transport and the timer return during the callback. -/
structure Report where
  addr_str : String
  rssi : Int
  type : Nat
  now : Nat
  scan_stop_ret : Int
  create_ret : Int
  new_conn : Nat

/-- The `device_found` event of a report. -/
def Report.event (r : Report) : Event :=
  Event.device_found r.addr_str r.rssi r.type r.now r.scan_stop_ret r.create_ret r.new_conn

/-- The advertisement kind is connectable. -/
def Report.connectable (r : Report) : Prop :=
  r.type = BT_GAP_ADV_TYPE_ADV_IND ∨ r.type = BT_GAP_ADV_TYPE_ADV_DIRECT_IND

/-- The identity of the report is the peer `address`: the first 17
characters agree, which is what `strncmp(address, addr_str, 17)` tests. -/
def Report.is_peer (r : Report) (address : String) : Prop :=
  strncmp address.toList r.addr_str.toList 17 = 0

/-- The calls logged between the states `s` and `s'`. -/
def new_calls (s s' : State) : List Call := s'.calls.drop s.calls.length

/-- A report of a stranger: connectable, strong, none of the peripherals. -/
def stranger_report : Report :=
  ⟨"AA:BB:CC:DD:EE:FF (random)", -40, BT_GAP_ADV_TYPE_ADV_IND, 0, 0, 0, 1⟩

/-- A report of the first peripheral, for which the transport opens
connection 1. -/
def first_peer_report : Report :=
  ⟨"C8:08:67:10:6A:25 (random)", -40, BT_GAP_ADV_TYPE_ADV_IND, 100, 0, 0, 1⟩

/-- The initial state with session 1 active. -/
def session_open : State := { init with default_conn := some 1 }

/-- Scenario 1 at the first peer with session 1 active and nine samples. -/
def sc1_full : State := { init with default_conn := some 1, connectionCount := 9 }

/-- Scenario 2 at the last peer with nine samples. -/
def sc2_full : State := { init with scenarioIdx := 2, addressIdx := 3, readCount := 9 }

/-- One successful connection attempt of scenario 1: the timer readings taken
in `device_found` and in `connected`, the connection the transport opens and
the reason it reports on disconnection. -/
structure Attempt where
  adv_time : Nat
  conn_time : Nat
  conn : Nat
  reason : Nat

/-- The address string that `bt_addr_le_to_str` writes for the peer `address`. -/
def peer_addr_str (address : String) : String := address ++ " (random)"

/-- The events of one successful connection attempt to the peer `address`: a
connectable, strong advertisement of the peer for which the scan stops and the
connection is created, the `connected` event without error and the
`disconnected` event of that connection.  The discovery callbacks in between
touch neither cursors nor buffers and are left out. -/
def attempt_events (address : String) (x : Attempt) : List Event :=
  [Event.device_found (peer_addr_str address) (-40) BT_GAP_ADV_TYPE_ADV_IND x.adv_time 0 0 x.conn,
   Event.connected (some x.conn) 0 x.conn_time,
   Event.disconnected (some x.conn) x.reason]

/-- The first `n` attempts: attempt `j` goes to peer `j / 10`. -/
def attempts (a : Nat → Attempt) : Nat → List Event
  | 0 => []
  | n + 1 => attempts a n ++ attempt_events (addressArr.getD (n / 10) "") (a n)

/-- The duration that attempt `j` measures. -/
def attempt_duration (tm : Timing) (a : Nat → Attempt) (j : Nat) : Nat :=
  tm.elapsed (a j).adv_time (a j).conn_time

/-- The output of the first `b` peers in scenario 1: for each peer, in list
order, the ten durations of its attempts. -/
def sc1_flushes (tm : Timing) (a : Nat → Attempt) : Nat → List Record
  | 0 => []
  | b + 1 => sc1_flushes tm a b ++
      flush_records (addressArr.getD b "") 1 (fun i => attempt_duration tm a (10 * b + i))

/-- The state of scenario 1 after `n` successful attempts: no session is
active, attempt `n` goes to peer `n / 10` with `n % 10` samples buffered (the
durations of that peer's attempts so far), the peers before it have been
flushed, and after the fortieth attempt the rotation is at scenario 2,
peer 0. -/
def Sc1Progress (tm : Timing) (a : Nat → Attempt) (n : Nat) (s : State) : Prop :=
  s.default_conn = none ∧
  s.scenarioIdx = (if n < 40 then 1 else 2) ∧
  s.addressIdx = (if n < 40 then ((n / 10 : Nat) : Int) else 0) ∧
  s.connectionCount = ((n % 10 : Nat) : Int) ∧
  (∀ i : Fin 10, i.val < n % 10 →
    s.connectionTimes i = attempt_duration tm a (10 * (n / 10) + i)) ∧
  s.uart = sc1_flushes tm a (n / 10)

/-! ### The successful event sequence of a full cycle -/

/-- The primary service attribute reported by discovery. -/
def attr_service : Attr := ⟨16, 17⟩
/-- A characteristic attribute reported by discovery. -/
def attr_characteristic : Attr := ⟨18, 19⟩
/-- The CCC descriptor attribute reported by discovery. -/
def attr_descriptor : Attr := ⟨20, 20⟩

/-- Peer `p` is found at time `t` and connection `p + 1` to it is established. -/
def open_session (p t : Nat) : List Event :=
  [Event.device_found (peer_addr_str (addressArr.getD p "")) (-40) BT_GAP_ADV_TYPE_ADV_IND t 0 0
     (p + 1),
   Event.connected (some (p + 1)) 0 (t + 3)]

/-- The discovery of the write handle, which the first session performs:
service, then characteristic. -/
def write_handle_discovery (p : Nat) : List Event :=
  [Event.discover_write_characteristic_func (some (p + 1)) (some attr_service),
   Event.discover_write_characteristic_func (some (p + 1)) (some attr_characteristic)]

/-- The end of a session with peer `p`. -/
def close_session (p : Nat) : Event := Event.disconnected (some (p + 1)) 22

/-- One connect/disconnect cycle of scenario 1 with peer `p`; the very first
one also discovers the write handle. -/
def sc1_session (first : Bool) (p t : Nat) : List Event :=
  open_session p t ++ (if first then write_handle_discovery p else []) ++
    [Event.discover_func (some (p + 1)) (some attr_service) (t + 5) 0 0, close_session p]

/-- The ten cycles of scenario 1 with peer `p`. -/
def sc1_batch (p : Nat) : List Event :=
  ((List.range 10).map fun k => sc1_session (p = 0 ∧ k = 0) p (100 * k)).flatten

/-- The session of scenario 2 with peer `p`: discovery starts the first read,
ten reads complete, the session ends. -/
def sc2_batch (p : Nat) : List Event :=
  open_session p 0 ++ [Event.discover_func (some (p + 1)) (some attr_service) 5 0 0] ++
    ((List.range 10).map fun k =>
      Event.read_func_cb_sc2 (some (p + 1)) 0 (some [1]) (200 * k + 150) (200 * k + 260)) ++
    [close_session p]

/-- The discovery chain of scenarios 3 and 4: service, characteristic,
descriptor, after which the subscription and the write of the scenario
succeed and the write is confirmed. -/
def subscribe_chain (p : Nat) : List Event :=
  [Event.discover_func (some (p + 1)) (some attr_service) 5 0 0,
   Event.discover_func (some (p + 1)) (some attr_characteristic) 6 0 0,
   Event.discover_func (some (p + 1)) (some attr_descriptor) 7 0 0,
   Event.write_func_cb 0]

/-- The session of scenario 3 with peer `p`: ten start/ack indication pairs,
the ack of pair `k` carrying the value `1000 + k`. -/
def sc3_batch (p : Nat) : List Event :=
  open_session p 0 ++ subscribe_chain p ++
    ((List.range 10).map fun k =>
      [Event.notify_func (some (p + 1)) (some [0, 0, 0, 0]) (300 * k),
       Event.notify_func (some (p + 1)) (some [(232 + k) % 256, 3, 0, 0]) (300 * k + 20)]).flatten ++
    [close_session p]

/-- The session of scenario 4 with peer `p`: ten notifications, each armed by
an edge on the GPIO line. -/
def sc4_notifications (p : Nat) : List Event :=
  open_session p 0 ++ subscribe_chain p ++
    ((List.range 10).map fun k =>
      [Event.gpio1pinCallback (400 * k),
       Event.notify_func (some (p + 1)) (some [1, 0, 0, 0]) (400 * k + 30)]).flatten

/-- The successful event sequence of a full cycle, up to but excluding the
disconnect that follows the last batch of scenario 4. -/
def full_cycle_open : List Event :=
  ((List.range 4).map sc1_batch).flatten ++ ((List.range 4).map sc2_batch).flatten ++
    ((List.range 4).map sc3_batch).flatten ++
    ((List.range 3).map fun p => sc4_notifications p ++ [close_session p]).flatten ++
    sc4_notifications 3

/-- The successful event sequence up to the start of the tenth indication pair
of the first peer in scenario 3: scenarios 1 and 2 for all peers, then the
session with the first peer, its subscription, nine start/ack pairs and the
tenth start. -/
def sc3_full_trace : List Event :=
  ((List.range 4).map sc1_batch).flatten ++ ((List.range 4).map sc2_batch).flatten ++
    open_session 0 0 ++ subscribe_chain 0 ++
    List.replicate 19 (Event.notify_func (some 1) (some [7, 0, 0, 0]) 0)

/-- The scenario cursor, the target cursor and the four write cursors. -/
def cycle_view (s : State) : Int × Int × Int × Int × Int × Int :=
  (s.scenarioIdx, s.addressIdx, s.connectionCount, s.readCount, s.indicateCount, s.notifyCount)

/-- Forty attempts with regular timer readings: attempt `j` is advertised at
`100 * j` and connected 7 cycles later on connection `j + 1`. -/
def steady_attempts : Nat → Attempt := fun j => ⟨100 * j, 100 * j + 7, j + 1, 22⟩

/-! ### Deliveries to `notify_func` -/

/-- One non-null delivery to `notify_func`: the connection, the delivered
bytes and the timer value at the delivery. -/
structure Delivery where
  conn : Option Nat
  bytes : List Nat
  now : Nat

/-- The `notify_func` event of a delivery. -/
def Delivery.event (d : Delivery) : Event := Event.notify_func d.conn (some d.bytes) d.now

/-- The successful event sequence up to the last indication of scenario 3:
scenarios 1 and 2 for all peers, scenario 3 for the first three peers, the
session with the last peer with nine start/ack pairs and the tenth start, and
then an edge on the GPIO line at time 6000. -/
def armed_last_indication : List Event :=
  ((List.range 4).map sc1_batch).flatten ++ ((List.range 4).map sc2_batch).flatten ++
    ((List.range 3).map sc3_batch).flatten ++ open_session 3 0 ++ subscribe_chain 3 ++
    List.replicate 19 (Event.notify_func (some 4) (some [7, 0, 0, 0]) 0) ++
    [Event.gpio1pinCallback 6000]

/-- The scenario cursor, the target cursor, the notify cursor, the armed flag
and the first cell of the notify buffer. -/
def notify_view (s : State) : Int × Int × Int × Bool × Nat :=
  (s.scenarioIdx, s.addressIdx, s.notifyCount, s.validNotify, s.notifyTimes 0)

/-! ### A target skipped in the middle of a batch -/

/-- Attempt `j` of the skipped-target run: advertised at `1000 * j`, connected
`10 + j` cycles later on connection `j + 1`. -/
def split_attempt (j : Nat) : Attempt := ⟨1000 * j, 1000 * j + 10 + j, j + 1, 22⟩

/-- Five successful connection attempts to the first peer. -/
def skip_first_half : List Event :=
  ((List.range 5).map fun j => attempt_events "C8:08:67:10:6A:25" (split_attempt j)).flatten

/-- Fifty advertisements of a stranger, which move the target cursor to the
second peer, then four successful attempts to the second peer and the
advertisement and `connected` event of a fifth. -/
def skip_second_half : List Event :=
  List.replicate 50 stranger_found ++
    ((List.range 4).map fun j =>
      attempt_events "F7:3E:E2:EA:4B:AC" (split_attempt (5 + j))).flatten ++
    (attempt_events "F7:3E:E2:EA:4B:AC" (split_attempt 9)).take 2

/-- The target cursor, the connection cursor, the cells of the connection
buffer and the UART output. -/
def connection_view (s : State) : Int × Int × List Nat × List Record :=
  (s.addressIdx, s.connectionCount, List.ofFn s.connectionTimes, s.uart)

/-- The scenario cursor, the read cursor, the cells of the read buffer and the
scenario tags of the UART output after its first forty records. -/
def read_view (s : State) : Int × Int × List Nat × List Int :=
  (s.scenarioIdx, s.readCount, List.ofFn s.readTimes, (s.uart.drop 40).map Record.scenario)

/-! # Theorems -/

/-! ## Elementary facts -/

theorem n_array_eq : n_array = 4 := rfl

@[simp] theorem wp_ok {α : Type} (a : α) (Q : α → Prop) (E : Fault → Prop) :
    wp (Except.ok a) Q E ↔ Q a := Iff.rfl

@[simp] theorem wp_error {α : Type} (f : Fault) (Q : α → Prop) (E : Fault → Prop) :
    wp (Except.error f : Except Fault α) Q E ↔ E f := Iff.rfl

@[simp] theorem wp_pure {α : Type} (a : α) (Q : α → Prop) (E : Fault → Prop) :
    wp (pure a : Except Fault α) Q E ↔ Q a := Iff.rfl

@[simp] theorem wp_bind {α β : Type} (x : Except Fault α) (f : α → Except Fault β)
    (Q : β → Prop) (E : Fault → Prop) :
    wp (x >>= f) Q E ↔ wp x (fun a => wp (f a) Q E) E := by
  cases x <;> rfl

@[simp] theorem wp_ite {α : Type} (c : Prop) [Decidable c] (x y : Except Fault α)
    (Q : α → Prop) (E : Fault → Prop) :
    wp (if c then x else y) Q E ↔ (c → wp x Q E) ∧ (¬ c → wp y Q E) := by
  by_cases h : c <;> simp [h]

theorem wp_of_eq_ok {α : Type} {x : Except Fault α} {a : α} {Q : α → Prop} {E : Fault → Prop}
    (h : wp x Q E) (hx : x = Except.ok a) : Q a := by
  subst hx; exact h

theorem wp_of_eq_error {α : Type} {x : Except Fault α} {f : Fault} {Q : α → Prop}
    {E : Fault → Prop} (h : wp x Q E) (hx : x = Except.error f) : E f := by
  subst hx; exact h

theorem wp_exists {α : Type} {x : Except Fault α} {Q : α → Prop}
    (h : wp x Q (fun _ => False)) : ∃ a, x = Except.ok a ∧ Q a := by
  cases x with
  | ok a => exact ⟨a, rfl, h⟩
  | error f => exact absurd h id

theorem wp_mono {α : Type} {x : Except Fault α} {Q Q' : α → Prop} {E E' : Fault → Prop}
    (h : wp x Q E) (hq : ∀ a, Q a → Q' a) (he : ∀ f, E f → E' f) : wp x Q' E' := by
  cases x with
  | ok a => exact hq a h
  | error f => exact he f h

@[simp] theorem wp_int_inc (x : Int) (Q : Int → Prop) (E : Fault → Prop) :
    wp (int_inc x) Q E ↔ (x < INT_MAX → Q (x + 1)) ∧ (¬ x < INT_MAX → E Fault.int_overflow) := by
  unfold int_inc
  by_cases h : x < INT_MAX <;> simp [h]

@[simp] theorem wp_buf_write (buf : Samples) (i : Int) (v : Nat) (Q : Samples → Prop)
    (E : Fault → Prop) :
    wp (buf_write buf i v) Q E ↔
      (∀ h : 0 ≤ i ∧ i < 10, Q (Function.update buf ⟨i.toNat, by omega⟩ (v % 2 ^ 64))) ∧
      (¬ (0 ≤ i ∧ i < 10) → E Fault.buffer_out_of_bounds) := by
  unfold buf_write
  by_cases h : 0 ≤ i ∧ i < 10 <;> simp [h]

theorem address_at_error {i : Int} {f : Fault} (h : address_at i = Except.error f) :
    f = Fault.address_out_of_bounds ∧ ¬ (0 ≤ i ∧ i < (n_array : Int)) := by
  by_cases hi : 0 ≤ i ∧ i < (n_array : Int)
  · rw [n_array_eq] at hi
    have : i = 0 ∨ i = 1 ∨ i = 2 ∨ i = 3 := by omega
    rcases this with h' | h' | h' | h' <;> subst h' <;> simp [address_at, addressArr] at h
  · refine ⟨?_, hi⟩
    unfold address_at at h
    split at h
    · split at h
      · simp at h
      · simpa [eq_comm] using h
    · simpa [eq_comm] using h

theorem address_at_ok_range {i : Int} {a : String} (h : address_at i = Except.ok a) :
    0 ≤ i ∧ i < (n_array : Int) := by
  unfold address_at at h
  split at h
  · rename_i h0
    split at h
    · rename_i hsome
      refine ⟨h0, ?_⟩
      have hlen := (List.get?_eq_some.1 hsome).1
      have : addressArr.length = 4 := rfl
      rw [n_array_eq]
      omega
    · simp at h
  · simp at h

theorem address_at_ok {i : Int} (h0 : 0 ≤ i) (h1 : i < (n_array : Int)) :
    ∃ a, address_at i = Except.ok a := by
  cases h : address_at i with
  | ok a => exact ⟨a, rfl⟩
  | error f => exact absurd ⟨h0, h1⟩ (address_at_error h).2

theorem SendUartData_loop_ok (a : String) (addressIdx scenarioIdx : Int) (times : Samples)
    (ha : address_at addressIdx = Except.ok a) :
    ∀ (n i : Nat), i + n ≤ 10 →
      SendUartData_loop addressIdx scenarioIdx times i n =
        Except.ok ((List.range n).map fun k =>
          (⟨a, scenarioIdx, if h : i + k < 10 then times ⟨i + k, h⟩ else 0⟩ : Record)) := by
  intro n
  induction n with
  | zero => intro i _; simp [SendUartData_loop]
  | succ n ih =>
    intro i hi
    have hlt : i < 10 := by omega
    rw [SendUartData_loop, dif_pos hlt, ha]
    simp only []
    rw [ih (i + 1) (by omega)]
    simp only [List.range_succ_eq_map, List.map_cons, List.map_map]
    congr 2
    · simp [hlt]
    · apply List.map_congr_left
      intro k _
      simp [Nat.add_assoc, Nat.add_comm 1 k]

theorem SendUartData_eq (s : State) (times : Samples) (a : String)
    (ha : address_at s.addressIdx = Except.ok a) :
    SendUartData s times 10 =
      Except.ok { s with uart := s.uart ++ flush_records a s.scenarioIdx times } := by
  unfold SendUartData
  have h10 : size_t_of_int 10 = 10 := by decide
  rw [h10, SendUartData_loop_ok a _ _ _ ha 10 0 (by omega)]
  rfl

theorem SendUartData_error (s : State) (times : Samples) (f : Fault)
    (ha : address_at s.addressIdx = Except.error f) :
    SendUartData s times 10 = Except.error f := by
  unfold SendUartData
  have h10 : size_t_of_int 10 = 10 := by decide
  rw [h10, SendUartData_loop, dif_pos (by omega), ha]
  rfl

@[simp] theorem wp_SendUartData (s : State) (times : Samples) (Q : State → Prop)
    (E : Fault → Prop) :
    wp (SendUartData s times 10) Q E ↔
      (∀ a, address_at s.addressIdx = Except.ok a →
        Q { s with uart := s.uart ++ flush_records a s.scenarioIdx times }) ∧
      (¬ (0 ≤ s.addressIdx ∧ s.addressIdx < (n_array : Int)) → E Fault.address_out_of_bounds) := by
  cases ha : address_at s.addressIdx with
  | ok a =>
    rw [SendUartData_eq s times a ha]
    simp [address_at_ok_range ha]
  | error f =>
    rw [SendUartData_error s times f ha]
    obtain ⟨rfl, hn⟩ := address_at_error ha
    simp [hn]

theorem flush_records_length (a : String) (k : Int) (t : Samples) :
    (flush_records a k t).length = 10 := by
  simp [flush_records]

theorem mem_flush_records {a : String} {k : Int} {t : Samples} {r : Record} :
    r ∈ flush_records a k t ↔ ∃ i, r = ⟨a, k, t i⟩ := by
  unfold flush_records
  rw [List.mem_ofFn]
  simp only [Set.mem_range, eq_comm]

theorem flush_records_scenario {a : String} {k : Int} {t : Samples} {r : Record}
    (h : r ∈ flush_records a k t) : r.scenario = k := by
  obtain ⟨i, rfl⟩ := mem_flush_records.1 h
  rfl

@[simp] theorem forall_mem_flush_records (a : String) (k : Int) (t : Samples) :
    (∀ r ∈ flush_records a k t, 1 ≤ r.scenario ∧ r.scenario ≤ 4) ↔ 1 ≤ k ∧ k ≤ 4 := by
  constructor
  · intro h
    exact h ⟨a, k, t 0⟩ (mem_flush_records.2 ⟨0, rfl⟩)
  · intro h r hr
    obtain ⟨i, rfl⟩ := mem_flush_records.1 hr
    exact h

/-! ## What each callback guarantees -/

theorem disconnected_wp (s : State) (conn : Option Nat) (reason : Nat) :
    wp (disconnected s conn reason)
      (fun s' => StepPost s s' ∧ (ScenarioValid s → ScenarioPost s s') ∧
        (TargetInRange s → TargetInRange s'))
      (fun f => f ≠ Fault.buffer_out_of_bounds) := by
  simp only [disconnected, disconnected_sc1, advance_target, target_inc, target_wrap, start_scan,
    connectionMaxCount, wp_ite, wp_bind, wp_pure, wp_int_inc, wp_SendUartData,
    StepPost, ScenarioPost, ScenarioValid, new_records, next_scenario,
    CursorsInRange, NotifyIdle, TargetInRange, readMaxCount, indicateMaxCount, notifyMaxCount,
    n_array_eq, size_t_of_int, INT_MAX, List.drop_left, List.drop_length, List.append_nil,
    List.not_mem_nil, forall_mem_flush_records]
  repeat' first | intro _ | apply And.intro
  all_goals first | omega | contradiction | simp_all

@[simp] theorem wp_address_at (i : Int) (Q : String → Prop) (E : Fault → Prop) :
    wp (address_at i) Q E ↔
      (∀ a, address_at i = Except.ok a → Q a) ∧
      (¬ (0 ≤ i ∧ i < (n_array : Int)) → E Fault.address_out_of_bounds) := by
  cases ha : address_at i with
  | ok a => simp [address_at_ok_range ha]
  | error f =>
    obtain ⟨rfl, hn⟩ := address_at_error ha
    simp [hn]

theorem device_found_wp (s : State) (addr_str : String) (rssi : Int) (type : Nat) (now : Nat)
    (scan_stop_ret create_ret : Int) (new_conn : Nat) :
    wp (device_found s addr_str rssi type now scan_stop_ret create_ret new_conn)
      (fun s' => StepPost s s' ∧ (ScenarioValid s → ScenarioPost s s'))
      (fun f => f ≠ Fault.buffer_out_of_bounds) := by
  simp only [device_found, device_found_retry, device_found_connect, start_scan,
    connTryMax, wp_ite, wp_bind, wp_pure, wp_int_inc, wp_address_at,
    StepPost, ScenarioPost, ScenarioValid, new_records, next_scenario,
    CursorsInRange, NotifyIdle, TargetInRange, connectionMaxCount, readMaxCount,
    indicateMaxCount, notifyMaxCount,
    n_array_eq, size_t_of_int, INT_MAX, List.drop_left, List.drop_length, List.append_nil,
    List.not_mem_nil, forall_mem_flush_records,
    apply_ite State.connectionCount, apply_ite State.readCount, apply_ite State.indicateCount,
    apply_ite State.notifyCount, apply_ite State.scenarioIdx, apply_ite State.addressIdx,
    apply_ite State.uart, ite_self]
  repeat' first | intro _ | apply And.intro
  all_goals first | omega | contradiction | simp_all

theorem sys_le32_error {b : List Nat} {f : Fault} (h : sys_le32 b = Except.error f) :
    f = Fault.short_payload := by
  unfold sys_le32 at h
  split at h <;> simp_all

@[simp] theorem wp_sys_le32 (b : List Nat) (Q : Nat → Prop) (E : Fault → Prop) :
    wp (sys_le32 b) Q E ↔
      (∀ v, sys_le32 b = Except.ok v → Q v) ∧
      ((∀ v, sys_le32 b ≠ Except.ok v) → E Fault.short_payload) := by
  cases h : sys_le32 b with
  | ok v => simp
  | error f => obtain rfl := sys_le32_error h; simp

@[simp] theorem wp_discover_uuid_is (s : State) (u : Uuid) (Q : Bool → Prop)
    (E : Fault → Prop) :
    wp (discover_uuid_is s u) Q E ↔
      (s.discover_params.uuid_set = true → Q (decide (s.uuid = u))) ∧
      (s.discover_params.uuid_set = false → E Fault.null_uuid) := by
  unfold discover_uuid_is
  cases s.discover_params.uuid_set <;> simp

theorem connected_wp (tm : Timing) (s : State) (conn : Option Nat) (err : Nat) (now : Nat) :
    wp (connected tm s conn err now)
      (fun s' => StepPost s s' ∧ (ScenarioValid s → ScenarioPost s s') ∧
        (TargetInRange s → TargetInRange s'))
      (fun f => CursorsInRange s → f ≠ Fault.buffer_out_of_bounds) := by
  simp only [connected, connected_discover, start_scan,
    wp_ite, wp_bind, wp_pure, wp_int_inc, wp_buf_write,
    StepPost, ScenarioPost, ScenarioValid, new_records, next_scenario,
    CursorsInRange, NotifyIdle, TargetInRange, connectionMaxCount, readMaxCount,
    indicateMaxCount, notifyMaxCount,
    n_array_eq, size_t_of_int, INT_MAX, List.drop_left, List.drop_length, List.append_nil,
    List.not_mem_nil, forall_mem_flush_records,
    apply_ite State.connectionCount, apply_ite State.readCount, apply_ite State.indicateCount,
    apply_ite State.notifyCount, apply_ite State.scenarioIdx, apply_ite State.addressIdx,
    apply_ite State.uart, ite_self]
  repeat' first | intro _ | apply And.intro
  all_goals first | omega | contradiction | simp_all

theorem read_func_cb_sc2_wp (tm : Timing) (s : State) (conn : Option Nat) (err : Nat)
    (data : Option (List Nat)) (now_end now_start : Nat) :
    wp (read_func_cb_sc2 tm s conn err data now_end now_start)
      (fun s' => StepPost s s' ∧ (ScenarioValid s → s.scenarioIdx ≠ 4 → ScenarioPost s s') ∧
        (TargetInRange s → TargetInRange s'))
      (fun f => CursorsInRange s → f ≠ Fault.buffer_out_of_bounds) := by
  simp only [read_func_cb_sc2, read, target_inc, target_wrap, start_scan,
    wp_ite, wp_bind, wp_pure, wp_int_inc, wp_buf_write, wp_SendUartData,
    StepPost, ScenarioPost, ScenarioValid, new_records, next_scenario,
    CursorsInRange, NotifyIdle, TargetInRange, connectionMaxCount, readMaxCount,
    indicateMaxCount, notifyMaxCount,
    n_array_eq, size_t_of_int, INT_MAX, List.drop_left, List.drop_length, List.append_nil,
    List.not_mem_nil, forall_mem_flush_records,
    apply_ite State.connectionCount, apply_ite State.readCount, apply_ite State.indicateCount,
    apply_ite State.notifyCount, apply_ite State.scenarioIdx, apply_ite State.addressIdx,
    apply_ite State.uart, ite_self]
  repeat' first | intro _ | apply And.intro
  all_goals first | omega | contradiction | simp_all

theorem notify_func_wp (tm : Timing) (s : State) (conn : Option Nat)
    (data : Option (List Nat)) (now : Nat) :
    wp (notify_func tm s conn data now)
      (fun s' => StepPost s s' ∧ (ScenarioValid s → ScenarioPost s s') ∧
        (TargetInRange s → TargetInRange s'))
      (fun f => CursorsInRange s → f ≠ Fault.buffer_out_of_bounds) := by
  cases data with
  | none =>
    simp only [notify_func, wp_pure, StepPost, ScenarioPost, ScenarioValid, new_records,
      CursorsInRange, NotifyIdle, TargetInRange, List.drop_length, List.append_nil,
      List.not_mem_nil]
    repeat' first | intro _ | apply And.intro
    all_goals first | omega | contradiction | simp_all
  | some bytes =>
    simp only [notify_func, notify_func_sc3, notify_func_sc3_count, notify_func_sc4,
      advance_target, advance_target_sc4, target_inc, target_wrap, target_wrap_sc4,
      wp_ite, wp_bind, wp_pure, wp_int_inc, wp_buf_write, wp_SendUartData, wp_sys_le32,
      StepPost, ScenarioPost, ScenarioValid, new_records, next_scenario,
      CursorsInRange, NotifyIdle, TargetInRange, connectionMaxCount, readMaxCount,
      indicateMaxCount, notifyMaxCount,
      n_array_eq, size_t_of_int, INT_MAX, List.drop_left, List.drop_length, List.append_nil,
      List.not_mem_nil, forall_mem_flush_records, List.append_assoc, List.mem_append,
      apply_ite State.connectionCount, apply_ite State.readCount, apply_ite State.indicateCount,
      apply_ite State.notifyCount, apply_ite State.scenarioIdx, apply_ite State.addressIdx,
      apply_ite State.uart, ite_self]
    repeat' first | intro _ | apply And.intro
    all_goals first | omega | contradiction |
      (rename_i h; rcases h with h | h <;> rw [flush_records_scenario h] <;> omega) |
      simp_all

theorem discover_func_wp (s : State) (conn : Option Nat) (attr : Option Attr) (now : Nat)
    (subscribe_ret write_ret : Int) :
    wp (discover_func s conn attr now subscribe_ret write_ret)
      (fun s' => StepPost s s' ∧ (ScenarioValid s → ScenarioPost s s') ∧
        (TargetInRange s → TargetInRange s'))
      (fun f => f ≠ Fault.buffer_out_of_bounds) := by
  cases attr with
  | none =>
    simp only [discover_func, wp_pure, StepPost, ScenarioPost, ScenarioValid, new_records,
      CursorsInRange, NotifyIdle, TargetInRange, List.drop_length, List.append_nil,
      List.not_mem_nil]
    repeat' first | intro _ | apply And.intro
    all_goals first | omega | contradiction | simp_all
  | some a =>
    simp only [discover_func, discover_func_head, discover_subscribe, discover_subscribe_ccc,
      writeScenarioIdx, read,
      wp_ite, wp_bind, wp_pure, wp_discover_uuid_is,
      StepPost, ScenarioPost, ScenarioValid, new_records, next_scenario,
      CursorsInRange, NotifyIdle, TargetInRange, connectionMaxCount, readMaxCount,
      indicateMaxCount, notifyMaxCount,
      n_array_eq, List.drop_length, List.append_nil, List.not_mem_nil,
      apply_ite State.connectionCount, apply_ite State.readCount, apply_ite State.indicateCount,
      apply_ite State.notifyCount, apply_ite State.scenarioIdx, apply_ite State.addressIdx,
      apply_ite State.uart, ite_self]
    repeat' first | intro _ | apply And.intro
    all_goals first | omega | contradiction | simp_all

theorem discover_write_characteristic_func_wp (s : State) (conn : Option Nat)
    (attr : Option Attr) :
    wp (discover_write_characteristic_func s conn attr)
      (fun s' => StepPost s s' ∧ (ScenarioValid s → ScenarioPost s s') ∧
        (TargetInRange s → TargetInRange s'))
      (fun f => f ≠ Fault.buffer_out_of_bounds) := by
  cases attr with
  | none =>
    simp only [discover_write_characteristic_func, wp_pure, StepPost, ScenarioPost,
      ScenarioValid, new_records,
      CursorsInRange, NotifyIdle, TargetInRange, List.drop_length, List.append_nil,
      List.not_mem_nil]
    repeat' first | intro _ | apply And.intro
    all_goals first | omega | contradiction | simp_all
  | some a =>
    simp only [discover_write_characteristic_func,
      wp_ite, wp_bind, wp_pure, wp_discover_uuid_is,
      StepPost, ScenarioPost, ScenarioValid, new_records, next_scenario,
      CursorsInRange, NotifyIdle, TargetInRange, connectionMaxCount, readMaxCount,
      indicateMaxCount, notifyMaxCount,
      n_array_eq, List.drop_length, List.append_nil, List.not_mem_nil]
    repeat' first | intro _ | apply And.intro
    all_goals first | omega | contradiction | simp_all

theorem gpio1pinCallback_post (s : State) (now : Nat) :
    StepPost s (gpio1pinCallback s now) ∧ (ScenarioValid s → ScenarioPost s (gpio1pinCallback s now)) ∧
      (TargetInRange s → TargetInRange (gpio1pinCallback s now)) := by
  simp only [gpio1pinCallback, StepPost, ScenarioPost, ScenarioValid, new_records,
    CursorsInRange, NotifyIdle, TargetInRange, List.drop_length, List.append_nil,
    List.not_mem_nil]
  repeat' first | intro _ | apply And.intro
  all_goals first | omega | contradiction | simp_all

theorem step_wp (tm : Timing) (s : State) (e : Event) :
    wp (step tm s e)
      (fun s' => StepPost s s' ∧
        (ScenarioValid s → (e.is_read_completion → s.scenarioIdx ≠ 4) → ScenarioPost s s') ∧
        (¬ e.is_device_found → TargetInRange s → TargetInRange s'))
      (fun f => CursorsInRange s → f ≠ Fault.buffer_out_of_bounds) := by
  cases e with
  | device_found addr_str rssi type now scan_stop_ret create_ret new_conn =>
    refine wp_mono (device_found_wp s addr_str rssi type now scan_stop_ret create_ret new_conn)
      ?_ ?_
    · intro s' h
      exact ⟨h.1, fun hv _ => h.2 hv, fun hd => absurd trivial hd⟩
    · intro f h _
      exact h
  | connected conn err now =>
    refine wp_mono (connected_wp tm s conn err now) ?_ ?_
    · intro s' h
      exact ⟨h.1, fun hv _ => h.2.1 hv, fun _ => h.2.2⟩
    · intro f h
      exact h
  | disconnected conn reason =>
    refine wp_mono (disconnected_wp s conn reason) ?_ ?_
    · intro s' h
      exact ⟨h.1, fun hv _ => h.2.1 hv, fun _ => h.2.2⟩
    · intro f h _
      exact h
  | read_func_cb_sc2 conn err data now_end now_start =>
    refine wp_mono (read_func_cb_sc2_wp tm s conn err data now_end now_start) ?_ ?_
    · intro s' h
      exact ⟨h.1, fun hv hr => h.2.1 hv (hr trivial), fun _ => h.2.2⟩
    · intro f h
      exact h
  | notify_func conn data now =>
    refine wp_mono (notify_func_wp tm s conn data now) ?_ ?_
    · intro s' h
      exact ⟨h.1, fun hv _ => h.2.1 hv, fun _ => h.2.2⟩
    · intro f h
      exact h
  | discover_func conn attr now subscribe_ret write_ret =>
    refine wp_mono (discover_func_wp s conn attr now subscribe_ret write_ret) ?_ ?_
    · intro s' h
      exact ⟨h.1, fun hv _ => h.2.1 hv, fun _ => h.2.2⟩
    · intro f h _
      exact h
  | discover_write_characteristic_func conn attr =>
    refine wp_mono (discover_write_characteristic_func_wp s conn attr) ?_ ?_
    · intro s' h
      exact ⟨h.1, fun hv _ => h.2.1 hv, fun _ => h.2.2⟩
    · intro f h _
      exact h
  | gpio1pinCallback now =>
    have h := gpio1pinCallback_post s now
    exact ⟨h.1, fun hv _ => h.2.1 hv, fun _ => h.2.2⟩
  | write_func_cb err =>
    have h := gpio1pinCallback_post s 0
    simp only [step, write_func_cb, wp_pure]
    simp only [StepPost, ScenarioPost, ScenarioValid, new_records,
      CursorsInRange, NotifyIdle, TargetInRange, List.drop_length, List.append_nil,
      List.not_mem_nil]
    repeat' first | intro _ | apply And.intro
    all_goals first | omega | contradiction | simp_all

set_option maxRecDepth 1000000
set_option maxHeartbeats 4000000

/-! ## Runs -/

theorem run_append (tm : Timing) (l1 l2 : List Event) :
    ∀ s, run tm s (l1 ++ l2) = run tm s l1 >>= fun s1 => run tm s1 l2 := by
  induction l1 with
  | nil => intro s; rfl
  | cons e es ih =>
    intro s
    simp only [List.cons_append, run]
    cases step tm s e with
    | error f => rfl
    | ok s1 => exact ih s1

theorem run_single (tm : Timing) (s : State) (e : Event) : run tm s [e] = step tm s e := by
  simp only [run]
  cases step tm s e <;> rfl

/-- Two observations of a run, before and after one more event, name the
state in between. -/
theorem run_then_step {α : Type} {tm : Timing} {s0 : State} {l : List Event} {e : Event}
    {f : State → α} {a b : α}
    (h1 : (run tm s0 l).toOption.map f = some a)
    (h2 : (run tm s0 (l ++ [e])).toOption.map f = some b) :
    ∃ s s', run tm s0 l = Except.ok s ∧ f s = a ∧ step tm s e = Except.ok s' ∧ f s' = b := by
  rw [run_append] at h2
  cases hr : run tm s0 l with
  | error x => rw [hr] at h1; simp [Except.toOption] at h1
  | ok s =>
    rw [hr] at h1 h2
    have h2' : (run tm s [e]).toOption.map f = some b := h2
    rw [run_single] at h2'
    cases hs : step tm s e with
    | error x => rw [hs] at h2'; simp [Except.toOption] at h2'
    | ok s' =>
      rw [hs] at h2'
      refine ⟨s, s', rfl, ?_, hs, ?_⟩
      · simpa [Except.toOption] using h1
      · simpa [Except.toOption] using h2'

/-- The same for a run whose last event faults. -/
theorem run_then_fault {α : Type} {tm : Timing} {s0 : State} {l : List Event} {e : Event}
    {f : State → α} {a : α} {x : Fault}
    (h1 : (run tm s0 l).toOption.map f = some a)
    (h2 : fault_of (run tm s0 (l ++ [e])) = some x) :
    ∃ s, run tm s0 l = Except.ok s ∧ f s = a ∧ step tm s e = Except.error x := by
  rw [run_append] at h2
  cases hr : run tm s0 l with
  | error y => rw [hr] at h1; simp [Except.toOption] at h1
  | ok s =>
    rw [hr] at h1 h2
    have h2' : fault_of (run tm s [e]) = some x := h2
    rw [run_single] at h2'
    cases hs : step tm s e with
    | ok s' => rw [hs] at h2'; simp [fault_of] at h2'
    | error y =>
      rw [hs] at h2'
      refine ⟨s, rfl, ?_, ?_⟩
      · simpa [Except.toOption] using h1
      · simp only [fault_of, Option.some.injEq] at h2'
        rw [hs, h2']

/-! ## Invariants of runs -/

theorem run_wp (tm : Timing) (evs : List Event) :
    ∀ s, CursorsInRange s → NotifyIdle s →
      wp (run tm s evs) (fun s' => CursorsInRange s' ∧ NotifyIdle s')
        (fun f => f ≠ Fault.buffer_out_of_bounds) := by
  induction evs with
  | nil => intro s hc hn; exact ⟨hc, hn⟩
  | cons e es ih =>
    intro s hc hn
    rw [run, wp_bind]
    refine wp_mono (step_wp tm s e) ?_ ?_
    · intro s1 h
      exact ih s1 (h.1.1 hc) (h.1.2.1 hn)
    · intro f h
      exact h hc

theorem init_cursors : CursorsInRange init := by
  simp [CursorsInRange, init, connectionMaxCount, readMaxCount, indicateMaxCount,
    notifyMaxCount]

theorem init_notify_idle : NotifyIdle init := fun _ => rfl

theorem reachable_invariant {tm : Timing} {evs : List Event} {s : State}
    (h : run tm init evs = Except.ok s) : CursorsInRange s ∧ NotifyIdle s :=
  wp_of_eq_ok (Q := fun s' => CursorsInRange s' ∧ NotifyIdle s')
    (run_wp tm evs init init_cursors init_notify_idle) h

/-! ## C1: the target cursor -/

/-- Every callback other than `device_found` keeps the target cursor inside
`addressArr`. -/
theorem target_kept_by_other_callbacks (tm : Timing) (s s' : State) (e : Event)
    (he : ¬ e.is_device_found) (hs : 0 ≤ s.addressIdx ∧ s.addressIdx < (n_array : Int))
    (hstep : step tm s e = Except.ok s') :
    0 ≤ s'.addressIdx ∧ s'.addressIdx < (n_array : Int) :=
  (wp_of_eq_ok (step_wp tm s e) hstep).2.2 he hs

/-- C1 fails in `device_found`. After 199 mismatched discoveries from the
initial state the target cursor is 3 and the retry counter 49; the next
mismatched discovery moves the cursor to 4 = `n_array`, outside `addressArr`,
and the discovery after that reads `addressArr[4]`. -/
theorem device_found_skip_leaves_list :
    n_array = 4 ∧
    (∃ s s' : State,
      run unit_timing init (List.replicate 199 stranger_found) = Except.ok s ∧
      rotation s = (3, 1, 49) ∧
      step unit_timing s stranger_found = Except.ok s' ∧
      rotation s' = (4, 1, 0)) ∧
    (∃ s' : State,
      run unit_timing init (List.replicate 200 stranger_found) = Except.ok s' ∧
      rotation s' = (4, 1, 0) ∧
      step unit_timing s' stranger_found = Except.error Fault.address_out_of_bounds) :=
  ⟨rfl, run_then_step (f := rotation) (by decide) (by decide),
    run_then_fault (f := rotation) (by decide) (by decide)⟩

/-! ## C2: one round of the target cursor -/

/-- C2. From target cursor 0 in scenario `k` (1 to 4), four consecutive
rotation steps of that scenario succeed; the first three leave the scenario
cursor at `k` while the target cursor visits 1, 2, 3, and the fourth returns
the target cursor to 0 and moves the scenario cursor to the cyclic successor
of `k`, changing nothing else. -/
theorem advance_target_full_round (s : State) (k : Int) (hk : 1 ≤ k ∧ k ≤ 4)
    (hs : s.scenarioIdx = k) (h0 : s.addressIdx = 0) :
    ∃ s1 s2 s3 s4 : State,
      completion_advance s = Except.ok s1 ∧ completion_advance s1 = Except.ok s2 ∧
      completion_advance s2 = Except.ok s3 ∧ completion_advance s3 = Except.ok s4 ∧
      (s1.addressIdx = 1 ∧ s1.scenarioIdx = k) ∧
      (s2.addressIdx = 2 ∧ s2.scenarioIdx = k) ∧
      (s3.addressIdx = 3 ∧ s3.scenarioIdx = k) ∧
      (s4.addressIdx = 0 ∧ s4.scenarioIdx = next_scenario k) ∧
      s4 = { s with scenarioIdx := next_scenario k } := by
  obtain ⟨c, a, sc, w, wh, st, et, cc, ct, rc, rt, ic, it, ack, nc, nt, vn, dc, u, dp, sp, ua,
    ca⟩ := s
  simp only at hs h0
  subst hs h0
  have hcase : sc = 1 ∨ sc = 2 ∨ sc = 3 ∨ sc = 4 := by omega
  rcases hcase with h | h | h | h <;> subst h <;>
    exact ⟨_, _, _, _, rfl, rfl, rfl, rfl, ⟨rfl, rfl⟩, ⟨rfl, rfl⟩, ⟨rfl, rfl⟩, ⟨rfl, rfl⟩, rfl⟩

/-- The round of C2 starting from the initial state (scenario 1). -/
theorem advance_target_full_round_witness :
    ∃ s1 s2 s3 s4 : State,
      completion_advance init = Except.ok s1 ∧ completion_advance s1 = Except.ok s2 ∧
      completion_advance s2 = Except.ok s3 ∧ completion_advance s3 = Except.ok s4 ∧
      (s1.addressIdx = 1 ∧ s1.scenarioIdx = 1) ∧
      (s2.addressIdx = 2 ∧ s2.scenarioIdx = 1) ∧
      (s3.addressIdx = 3 ∧ s3.scenarioIdx = 1) ∧
      (s4.addressIdx = 0 ∧ s4.scenarioIdx = next_scenario 1) ∧
      s4 = { init with scenarioIdx := next_scenario 1 } :=
  advance_target_full_round init 1 (by decide) rfl rfl

/-! ## The rotation step inside the completing callbacks -/

theorem completion_advance_spec (s : State) (hs : 1 ≤ s.scenarioIdx ∧ s.scenarioIdx ≤ 4)
    (ha : 0 ≤ s.addressIdx ∧ s.addressIdx < 4) :
    ∃ t, completion_advance s = Except.ok t ∧
      t.addressIdx = (if s.addressIdx = 3 then 0 else s.addressIdx + 1) ∧
      t.scenarioIdx =
        (if s.addressIdx = 3 then next_scenario s.scenarioIdx else s.scenarioIdx) := by
  apply wp_exists
  simp only [completion_advance, advance_target, advance_target_sc4, target_inc, target_wrap,
    target_wrap_sc4, wp_ite, wp_bind, wp_pure, wp_int_inc, n_array_eq, size_t_of_int, INT_MAX,
    next_scenario]
  repeat' first | intro _ | apply And.intro
  all_goals first | omega | contradiction | ((try simp only [if_true]); split <;> omega)

theorem disconnected_rotation (s : State) (c : Nat) (reason : Nat) (a : String)
    (ha : address_at s.addressIdx = Except.ok a) (hsc : s.scenarioIdx = 1)
    (hconn : s.default_conn = some c) (hcount : s.connectionCount = 9) :
    ∃ s', disconnected s (some c) reason = Except.ok s' ∧
      s'.addressIdx = (if s.addressIdx = 3 then 0 else s.addressIdx + 1) ∧
      s'.scenarioIdx =
        (if s.addressIdx = 3 then next_scenario s.scenarioIdx else s.scenarioIdx) := by
  have hrange := address_at_ok_range ha
  rw [n_array_eq] at hrange
  apply wp_exists
  simp only [disconnected, disconnected_sc1, advance_target, target_inc, target_wrap, start_scan,
    connectionMaxCount, wp_ite, wp_bind, wp_pure, wp_int_inc, wp_SendUartData,
    hsc, hconn, hcount, n_array_eq, size_t_of_int, INT_MAX, next_scenario]
  repeat' first | intro _ | apply And.intro
  all_goals first | omega | contradiction | ((try simp only [if_true]); split <;> omega)

theorem read_func_cb_sc2_rotation (tm : Timing) (s : State) (conn : Option Nat) (err : Nat)
    (data : Option (List Nat)) (now_end now_start : Nat) (a : String)
    (ha : address_at s.addressIdx = Except.ok a) (hsc : s.scenarioIdx = 2)
    (hcount : s.readCount = 9) :
    ∃ s', read_func_cb_sc2 tm s conn err data now_end now_start = Except.ok s' ∧
      s'.addressIdx = (if s.addressIdx = 3 then 0 else s.addressIdx + 1) ∧
      s'.scenarioIdx =
        (if s.addressIdx = 3 then next_scenario s.scenarioIdx else s.scenarioIdx) := by
  have hrange := address_at_ok_range ha
  rw [n_array_eq] at hrange
  apply wp_exists
  simp only [read_func_cb_sc2, read, target_inc, target_wrap,
    readMaxCount, wp_ite, wp_bind, wp_pure, wp_int_inc, wp_SendUartData, wp_buf_write,
    hsc, hcount, n_array_eq, size_t_of_int, INT_MAX, next_scenario]
  repeat' first | intro _ | apply And.intro
  all_goals first | omega | contradiction | ((try simp only [if_true]); split <;> omega)

theorem notify_func_sc3_rotation (tm : Timing) (s : State) (conn : Option Nat)
    (bytes : List Nat) (v : Nat) (now : Nat) (a : String)
    (hidle : NotifyIdle s)
    (ha : address_at s.addressIdx = Except.ok a) (hsc : s.scenarioIdx = 3)
    (hack : s.ackIndicate = true) (hcount : s.indicateCount = 9)
    (hv : sys_le32 bytes = Except.ok v) :
    ∃ s', notify_func tm s conn (some bytes) now = Except.ok s' ∧
      s'.addressIdx = (if s.addressIdx = 3 then 0 else s.addressIdx + 1) ∧
      s'.scenarioIdx =
        (if s.addressIdx = 3 then next_scenario s.scenarioIdx else s.scenarioIdx) := by
  have hrange := address_at_ok_range ha
  rw [n_array_eq] at hrange
  have hn : s.notifyCount = 0 := hidle (by omega)
  apply wp_exists
  simp only [notify_func, notify_func_sc3, notify_func_sc3_count, notify_func_sc4,
    advance_target, advance_target_sc4, target_inc, target_wrap, target_wrap_sc4,
    indicateMaxCount, notifyMaxCount, wp_ite, wp_bind, wp_pure, wp_int_inc, wp_SendUartData,
    wp_buf_write, hv, wp_ok,
    hsc, hcount, hack, hn, n_array_eq, size_t_of_int, INT_MAX, next_scenario]
  repeat' first | intro _ | apply And.intro
  all_goals first | omega | contradiction | ((try simp only [if_true]); split <;> omega)

theorem notify_func_sc4_rotation (tm : Timing) (s : State) (conn : Option Nat)
    (bytes : List Nat) (v : Nat) (now : Nat) (a : String)
    (ha : address_at s.addressIdx = Except.ok a) (hsc : s.scenarioIdx = 4)
    (harmed : s.validNotify = true) (hcount : s.notifyCount = 9)
    (hv : sys_le32 bytes = Except.ok v) :
    ∃ s', notify_func tm s conn (some bytes) now = Except.ok s' ∧
      s'.addressIdx = (if s.addressIdx = 3 then 0 else s.addressIdx + 1) ∧
      s'.scenarioIdx =
        (if s.addressIdx = 3 then next_scenario s.scenarioIdx else s.scenarioIdx) := by
  have hrange := address_at_ok_range ha
  rw [n_array_eq] at hrange
  apply wp_exists
  simp only [notify_func, notify_func_sc3, notify_func_sc3_count, notify_func_sc4,
    advance_target, advance_target_sc4, target_inc, target_wrap, target_wrap_sc4,
    indicateMaxCount, notifyMaxCount, wp_ite, wp_bind, wp_pure, wp_int_inc, wp_SendUartData,
    wp_buf_write, hv, wp_ok,
    hsc, hcount, harmed, n_array_eq, size_t_of_int, INT_MAX, next_scenario]
  repeat' first | intro _ | apply And.intro
  all_goals first | omega | contradiction | ((try simp only [if_true]); split <;> omega)

theorem rotation_agrees (s s' : State) (a : String)
    (ha : address_at s.addressIdx = Except.ok a) (hs : 1 ≤ s.scenarioIdx ∧ s.scenarioIdx ≤ 4)
    (h1 : s'.addressIdx = (if s.addressIdx = 3 then 0 else s.addressIdx + 1))
    (h2 : s'.scenarioIdx =
      (if s.addressIdx = 3 then next_scenario s.scenarioIdx else s.scenarioIdx)) :
    ∃ t, completion_advance s = Except.ok t ∧
      s'.addressIdx = t.addressIdx ∧ s'.scenarioIdx = t.scenarioIdx := by
  have hrange := address_at_ok_range ha
  rw [n_array_eq] at hrange
  obtain ⟨t, ht, hta, hts⟩ := completion_advance_spec s hs (by omega)
  exact ⟨t, ht, by rw [h1, hta], by rw [h2, hts]⟩

/-- At fullness each completing callback moves the target cursor and the
scenario cursor exactly as one rotation step `completion_advance` does
(for the scenario 3 delivery: in states reached from the initial one). -/
theorem completion_advance_in_callbacks (tm : Timing) :
    (∀ (s : State) (c reason : Nat) (a : String),
      address_at s.addressIdx = Except.ok a → s.scenarioIdx = 1 →
      s.default_conn = some c → s.connectionCount = 9 →
      ∃ s' t, disconnected s (some c) reason = Except.ok s' ∧
        completion_advance s = Except.ok t ∧
        s'.addressIdx = t.addressIdx ∧ s'.scenarioIdx = t.scenarioIdx) ∧
    (∀ (s : State) (conn : Option Nat) (err : Nat) (data : Option (List Nat))
      (now_end now_start : Nat) (a : String),
      address_at s.addressIdx = Except.ok a → s.scenarioIdx = 2 → s.readCount = 9 →
      ∃ s' t, read_func_cb_sc2 tm s conn err data now_end now_start = Except.ok s' ∧
        completion_advance s = Except.ok t ∧
        s'.addressIdx = t.addressIdx ∧ s'.scenarioIdx = t.scenarioIdx) ∧
    (∀ (evs : List Event) (s : State) (conn : Option Nat) (bytes : List Nat) (v now : Nat)
      (a : String),
      run tm init evs = Except.ok s →
      address_at s.addressIdx = Except.ok a → s.scenarioIdx = 3 →
      s.ackIndicate = true → s.indicateCount = 9 → sys_le32 bytes = Except.ok v →
      ∃ s' t, notify_func tm s conn (some bytes) now = Except.ok s' ∧
        completion_advance s = Except.ok t ∧
        s'.addressIdx = t.addressIdx ∧ s'.scenarioIdx = t.scenarioIdx) ∧
    (∀ (s : State) (conn : Option Nat) (bytes : List Nat) (v now : Nat) (a : String),
      address_at s.addressIdx = Except.ok a → s.scenarioIdx = 4 →
      s.validNotify = true → s.notifyCount = 9 → sys_le32 bytes = Except.ok v →
      ∃ s' t, notify_func tm s conn (some bytes) now = Except.ok s' ∧
        completion_advance s = Except.ok t ∧
        s'.addressIdx = t.addressIdx ∧ s'.scenarioIdx = t.scenarioIdx) := by
  refine ⟨?_, ?_, ?_, ?_⟩
  · intro s c reason a ha hsc hconn hcount
    obtain ⟨s', h, h1, h2⟩ := disconnected_rotation s c reason a ha hsc hconn hcount
    obtain ⟨t, ht, h3, h4⟩ := rotation_agrees s s' a ha (by omega) h1 h2
    exact ⟨s', t, h, ht, h3, h4⟩
  · intro s conn err data now_end now_start a ha hsc hcount
    obtain ⟨s', h, h1, h2⟩ :=
      read_func_cb_sc2_rotation tm s conn err data now_end now_start a ha hsc hcount
    obtain ⟨t, ht, h3, h4⟩ := rotation_agrees s s' a ha (by omega) h1 h2
    exact ⟨s', t, h, ht, h3, h4⟩
  · intro evs s conn bytes v now a hrun ha hsc hack hcount hv
    obtain ⟨s', h, h1, h2⟩ :=
      notify_func_sc3_rotation tm s conn bytes v now a (reachable_invariant hrun).2 ha hsc hack
        hcount hv
    obtain ⟨t, ht, h3, h4⟩ := rotation_agrees s s' a ha (by omega) h1 h2
    exact ⟨s', t, h, ht, h3, h4⟩
  · intro s conn bytes v now a ha hsc harmed hcount hv
    obtain ⟨s', h, h1, h2⟩ :=
      notify_func_sc4_rotation tm s conn bytes v now a ha hsc harmed hcount hv
    obtain ⟨t, ht, h3, h4⟩ := rotation_agrees s s' a ha (by omega) h1 h2
    exact ⟨s', t, h, ht, h3, h4⟩

/-! ## C3 and C4: the connection retry filter -/

theorem device_found_passes (s : State) (r : Report) (a : String)
    (hconn : s.default_conn = none) (hadv : r.connectable) (hrssi : -90 ≤ r.rssi)
    (ha : address_at s.addressIdx = Except.ok a) :
    device_found s r.addr_str r.rssi r.type r.now r.scan_stop_ret r.create_ret r.new_conn =
      if strncmp a.toList r.addr_str.toList 17 ≠ 0 then device_found_retry s
      else pure (device_found_connect s r.addr_str r.now r.scan_stop_ret r.create_ret
        r.new_conn) := by
  unfold device_found
  rw [if_neg (by simp [hconn]), if_neg (by unfold Report.connectable at hadv; omega),
    if_neg (by omega), ha]
  rfl

theorem device_found_retry_below (s : State) (h0 : 0 ≤ s.connTry) (h : s.connTry + 1 < 50) :
    device_found_retry s = Except.ok { s with connTry := s.connTry + 1 } := by
  unfold device_found_retry int_inc
  rw [if_pos (by unfold INT_MAX; omega)]
  simp only [bind, Except.bind, connTryMax]
  rw [if_neg (by omega)]
  rfl

theorem device_found_retry_skip (s : State) (h : s.connTry = 49)
    (ha : s.addressIdx < INT_MAX) :
    device_found_retry s = Except.ok { s with connTry := 0, addressIdx := s.addressIdx + 1 } := by
  unfold device_found_retry int_inc
  rw [if_pos (by unfold INT_MAX; omega)]
  simp only [bind, Except.bind, connTryMax]
  rw [if_pos (by omega), if_pos ha]
  rfl

theorem run_mismatches (tm : Timing) (a : String) (rs : List Report) :
    ∀ s : State, s.default_conn = none → address_at s.addressIdx = Except.ok a →
      0 ≤ s.connTry → (∀ r ∈ rs, r.connectable ∧ -90 ≤ r.rssi ∧ ¬ r.is_peer a) →
      s.connTry + rs.length < 50 →
      run tm s (rs.map Report.event) =
        Except.ok { s with connTry := s.connTry + rs.length } := by
  induction rs with
  | nil => intro s _ _ _ _ _; simp [run]
  | cons r rs ih =>
    intro s hconn ha h0 hrs hlen
    have hr := hrs r (List.mem_cons_self r rs)
    simp only [List.length_cons, Nat.cast_add, Nat.cast_one] at hlen
    have hstep : step tm s r.event = Except.ok { s with connTry := s.connTry + 1 } := by
      simp only [Report.event, step]
      rw [device_found_passes s r a hconn hr.1 hr.2.1 ha,
        if_pos (show strncmp a.toList r.addr_str.toList 17 ≠ 0 from hr.2.2),
        device_found_retry_below s h0 (by omega)]
    simp only [List.map_cons, run, hstep, bind, Except.bind]
    rw [ih { s with connTry := s.connTry + 1 } hconn ha (by simp only; omega)
      (fun r' hr' => hrs r' (List.mem_cons_of_mem r hr')) (by simp only; omega)]
    simp only [List.length_cons, Nat.cast_add, Nat.cast_one]
    congr 2
    omega

/-- C3. With no session active, the retry counter at 0 and the target cursor
on a configured peer: fewer than 50 consecutive discoveries that pass the
connectable and signal checks but are not the current target only count (the
counter equals their number, nothing else changes); exactly 50 of them leave
the counter at 0 and the target cursor one further, nothing else changed; and
a discovery of the current target at any counter value 0..49 sets the counter
to 0 and leaves the target cursor and the scenario cursor as they were. -/
theorem retry_filter_counting (tm : Timing) (s : State) (a : String)
    (hconn : s.default_conn = none) (htry : s.connTry = 0)
    (ha : address_at s.addressIdx = Except.ok a) :
    (∀ rs : List Report, (∀ r ∈ rs, r.connectable ∧ -90 ≤ r.rssi ∧ ¬ r.is_peer a) →
      (rs.length < 50 →
        run tm s (rs.map Report.event) = Except.ok { s with connTry := rs.length }) ∧
      (rs.length = 50 →
        run tm s (rs.map Report.event) =
          Except.ok { s with connTry := 0, addressIdx := s.addressIdx + 1 })) ∧
    (∀ (c : Int) (r : Report), 0 ≤ c ∧ c ≤ 49 → r.connectable → -90 ≤ r.rssi → r.is_peer a →
      ∃ s', step tm { s with connTry := c } r.event = Except.ok s' ∧
        s'.connTry = 0 ∧ s'.addressIdx = s.addressIdx ∧ s'.scenarioIdx = s.scenarioIdx) := by
  have hrange := address_at_ok_range ha
  rw [n_array_eq] at hrange
  refine ⟨fun rs hrs => ⟨fun hlen => ?_, fun hlen => ?_⟩, ?_⟩
  · rw [run_mismatches tm a rs s hconn ha (by omega) hrs (by omega), htry]
    simp
  · obtain ⟨l, r, rfl⟩ : ∃ l r, rs = l ++ [r] := by
      cases h : rs.reverse with
      | nil => simp at h; subst h; simp at hlen
      | cons r l =>
        refine ⟨l.reverse, r, ?_⟩
        rw [← List.reverse_cons, ← h, List.reverse_reverse]
    simp only [List.length_append, List.length_singleton] at hlen
    have hl : ∀ r' ∈ l, r'.connectable ∧ -90 ≤ r'.rssi ∧ ¬ r'.is_peer a :=
      fun r' hr' => hrs r' (List.mem_append_left _ hr')
    have hr := hrs r (List.mem_append_right _ (List.mem_singleton_self r))
    rw [List.map_append, run_append,
      run_mismatches tm a l s hconn ha (by omega) hl (by omega)]
    simp only [List.map_cons, List.map_nil, bind, Except.bind, run_single, Report.event, step]
    rw [device_found_passes { s with connTry := s.connTry + l.length } r a hconn hr.1 hr.2.1 ha,
      if_pos (show strncmp a.toList r.addr_str.toList 17 ≠ 0 from hr.2.2),
      device_found_retry_skip _ (by simp only; omega) (by simp only [INT_MAX]; omega)]
  · intro c r _ hadv hrssi hpeer
    simp only [Report.event, step]
    rw [device_found_passes { s with connTry := c } r a hconn hadv hrssi ha,
      if_neg (show ¬ strncmp a.toList r.addr_str.toList 17 ≠ 0 from not_not.2 hpeer)]
    refine ⟨_, rfl, ?_⟩
    simp only [device_found_connect, start_scan]
    repeat' split
    all_goals exact ⟨rfl, rfl, rfl⟩

/-- Fifty strangers move the cursor from the first peer to the second, 49 do
not, and the first peer seen at counter 30 resets the counter. -/
theorem retry_filter_counting_witness :
    run unit_timing init ((List.replicate 50 stranger_report).map Report.event) =
      Except.ok { init with connTry := 0, addressIdx := init.addressIdx + 1 } ∧
    run unit_timing init ((List.replicate 49 stranger_report).map Report.event) =
      Except.ok { init with connTry := 49 } ∧
    ∃ s', step unit_timing { init with connTry := 30 } first_peer_report.event = Except.ok s' ∧
      s'.connTry = 0 ∧ s'.addressIdx = init.addressIdx ∧ s'.scenarioIdx = init.scenarioIdx :=
  have h := retry_filter_counting unit_timing init "C8:08:67:10:6A:25" rfl rfl rfl
  have hs : ∀ n, ∀ r ∈ List.replicate n stranger_report,
      r.connectable ∧ -90 ≤ r.rssi ∧ ¬ r.is_peer "C8:08:67:10:6A:25" := by
    intro n r hr
    rw [List.eq_of_mem_replicate hr]
    exact ⟨Or.inl rfl, by decide, by unfold Report.is_peer; decide⟩
  ⟨(h.1 (List.replicate 50 stranger_report) (hs 50)).2 (by simp),
    (h.1 (List.replicate 49 stranger_report) (hs 49)).1 (by simp),
    h.2 30 first_peer_report (by decide) (Or.inl rfl) (by decide)
      (by unfold Report.is_peer; decide)⟩

theorem new_calls_self (s : State) : new_calls s s = [] := by
  simp [new_calls]

theorem device_found_retry_calls (s : State) (htry : s.connTry < INT_MAX)
    (ha : s.addressIdx < INT_MAX) :
    ∃ s', device_found_retry s = Except.ok s' ∧ s'.calls = s.calls := by
  apply wp_exists
  simp only [device_found_retry, wp_bind, wp_ite, wp_pure, wp_int_inc]
  repeat' first | intro _ | apply And.intro
  all_goals first | trivial | contradiction

/-- C4. On a state whose target cursor indexes `addressArr` (current target
`a`) and whose retry counter can be incremented, and when `bt_le_scan_stop`
succeeds, `device_found` returns normally and has called `bt_conn_le_create`
for the reported address exactly when no session is active, the advertisement
is `ADV_IND` or `ADV_DIRECT_IND`, the signal is at least -90 and the first 17
characters of the address are those of `a`; a report rejected by one of the
first three tests leaves the whole state unchanged. -/
theorem device_found_connect_iff (s : State) (r : Report) (a : String)
    (hstop : r.scan_stop_ret = 0) (ha : address_at s.addressIdx = Except.ok a)
    (htry : s.connTry < INT_MAX) :
    ∃ s', device_found s r.addr_str r.rssi r.type r.now r.scan_stop_ret r.create_ret
        r.new_conn = Except.ok s' ∧
      (Call.bt_conn_le_create r.addr_str ∈ new_calls s s' ↔
        s.default_conn = none ∧ r.connectable ∧ -90 ≤ r.rssi ∧ r.is_peer a) ∧
      (s.default_conn ≠ none ∨ ¬ r.connectable ∨ r.rssi < -90 → s' = s) := by
  have hrange := address_at_ok_range ha
  rw [n_array_eq] at hrange
  by_cases hconn : s.default_conn = none
  · by_cases hadv : r.connectable
    · by_cases hrssi : -90 ≤ r.rssi
      · rw [device_found_passes s r a hconn hadv hrssi ha]
        by_cases hpeer : r.is_peer a
        · rw [if_neg (show ¬ strncmp a.toList r.addr_str.toList 17 ≠ 0 from not_not.2 hpeer)]
          refine ⟨_, rfl, ?_, ?_⟩
          · simp only [hconn, hadv, hrssi, hpeer, and_self, iff_true]
            by_cases h1 : s.scenarioIdx = 1 <;> by_cases h2 : r.create_ret = 0 <;>
              simp [device_found_connect, hstop, new_calls, start_scan, h1, h2]
          · intro h
            rcases h with h | h | h
            · exact absurd hconn h
            · exact absurd hadv h
            · omega
        · rw [if_pos (show strncmp a.toList r.addr_str.toList 17 ≠ 0 from hpeer)]
          obtain ⟨s', hs', hcalls⟩ :=
            device_found_retry_calls s htry (by simp only [INT_MAX]; omega)
          refine ⟨s', hs', ?_, ?_⟩
          · simp [new_calls, hcalls, hpeer]
          · intro h
            rcases h with h | h | h
            · exact absurd hconn h
            · exact absurd hadv h
            · omega
      · refine ⟨s, ?_, ?_, fun _ => rfl⟩
        · unfold device_found
          rw [if_neg (by simp [hconn]),
            if_neg (by unfold Report.connectable at hadv; omega), if_pos (by omega)]
          rfl
        · simp [new_calls_self, hrssi]
    · refine ⟨s, ?_, ?_, fun _ => rfl⟩
      · unfold device_found
        rw [if_neg (by simp [hconn]),
          if_pos (by unfold Report.connectable at hadv; omega)]
        rfl
      · simp [new_calls_self, hadv]
  · refine ⟨s, ?_, ?_, fun _ => rfl⟩
    · unfold device_found
      rw [if_pos hconn]
      rfl
    · simp [new_calls_self, hconn]

/-- The first peripheral, seen from the initial state, is connected to; a
stranger seen during a session changes nothing. -/
theorem device_found_connect_iff_witness :
    (∃ s', step unit_timing init first_peer_report.event = Except.ok s' ∧
      Call.bt_conn_le_create "C8:08:67:10:6A:25 (random)" ∈ new_calls init s') ∧
    step unit_timing session_open stranger_report.event = Except.ok session_open := by
  obtain ⟨s', h1, h2, _⟩ :=
    device_found_connect_iff init first_peer_report "C8:08:67:10:6A:25" rfl rfl (by decide)
  obtain ⟨s2, h3, _, h4⟩ :=
    device_found_connect_iff session_open stranger_report "C8:08:67:10:6A:25" rfl rfl
      (by decide)
  refine ⟨⟨s', h1, h2.2 ⟨rfl, Or.inl rfl, by decide, by unfold Report.is_peer; decide⟩⟩, ?_⟩
  have hs2 : s2 = session_open := h4 (Or.inl (by decide))
  rw [hs2] at h3
  exact h3

/-! ## C5: the write cursors stay inside the buffers -/

/-- C5. From the initial state, no sequence of callbacks ever indexes a sample
buffer outside its ten cells, and after every sequence that the source
defines each of the four write cursors is at least 0 and below the capacity
10. -/
theorem sample_cursors_in_range (tm : Timing) (evs : List Event) :
    run tm init evs ≠ Except.error Fault.buffer_out_of_bounds ∧
    ∀ s, run tm init evs = Except.ok s →
      (0 ≤ s.connectionCount ∧ s.connectionCount < 10) ∧
      (0 ≤ s.readCount ∧ s.readCount < 10) ∧
      (0 ≤ s.indicateCount ∧ s.indicateCount < 10) ∧
      (0 ≤ s.notifyCount ∧ s.notifyCount < 10) := by
  constructor
  · intro h
    exact wp_of_eq_error (E := fun f => f ≠ Fault.buffer_out_of_bounds)
      (run_wp tm evs init init_cursors init_notify_idle) h rfl
  · intro s h
    exact (reachable_invariant h).1

/-- The cursors after the run that reaches the tenth indication of scenario 3. -/
theorem sample_cursors_in_range_witness :
    ∃ s, run unit_timing init sc3_full_trace = Except.ok s ∧
      (0 ≤ s.connectionCount ∧ s.connectionCount < 10) ∧
      (0 ≤ s.readCount ∧ s.readCount < 10) ∧
      (0 ≤ s.indicateCount ∧ s.indicateCount < 10) ∧
      (0 ≤ s.notifyCount ∧ s.notifyCount < 10) := by
  have hdec : (run unit_timing init sc3_full_trace).toOption.map State.indicateCount =
      some 9 := by decide
  cases hr : run unit_timing init sc3_full_trace with
  | error x => rw [hr] at hdec; simp [Except.toOption] at hdec
  | ok s => exact ⟨s, rfl, (sample_cursors_in_range unit_timing sc3_full_trace).2 s hr⟩

/-! ## C6: flush at fullness -/

theorem sys_le32_lt {b : List Nat} {v : Nat} (h : sys_le32 b = Except.ok v) : v < 2 ^ 32 := by
  unfold sys_le32 at h
  split at h
  · simp only [Except.ok.injEq] at h
    omega
  · simp at h

theorem address_at_unique {i : Int} {a b : String} (ha : address_at i = Except.ok a)
    (hb : address_at i = Except.ok b) : b = a := by
  rw [ha] at hb
  exact (Except.ok.inj hb).symm

theorem elapsed_mod (tm : Timing) (x y : Nat) : tm.elapsed x y % 2 ^ 64 = tm.elapsed x y := by
  unfold Timing.elapsed
  exact Nat.mod_mod _ _

theorem disconnected_at_full (s : State) (c : Nat) (reason : Nat) (a : String)
    (ha : address_at s.addressIdx = Except.ok a) (hsc : s.scenarioIdx = 1)
    (hconn : s.default_conn = some c) (hcount : s.connectionCount = 9) :
    ∃ s', disconnected s (some c) reason = Except.ok s' ∧
      s'.uart = s.uart ++ flush_records a 1 s.connectionTimes ∧ s'.connectionCount = 0 := by
  have hrange := address_at_ok_range ha
  rw [n_array_eq] at hrange
  apply wp_exists
  simp only [disconnected, disconnected_sc1, advance_target, target_inc, target_wrap, start_scan,
    connectionMaxCount, wp_ite, wp_bind, wp_pure, wp_int_inc, wp_SendUartData,
    hsc, hconn, hcount, n_array_eq, size_t_of_int, INT_MAX, apply_ite State.uart,
    apply_ite State.connectionCount, ite_self]
  repeat' first | intro _ | apply And.intro
  all_goals first | omega | contradiction | simp_all

theorem read_func_cb_sc2_at_full (tm : Timing) (s : State) (conn : Option Nat) (err : Nat)
    (data : Option (List Nat)) (now_end now_start : Nat) (a : String)
    (ha : address_at s.addressIdx = Except.ok a) (hsc : s.scenarioIdx = 2)
    (hcount : s.readCount = 9) :
    ∃ s', read_func_cb_sc2 tm s conn err data now_end now_start = Except.ok s' ∧
      s'.uart = s.uart ++
        flush_records a 2 (Function.update s.readTimes 9 (tm.elapsed s.start_time now_end)) ∧
      s'.readCount = 0 := by
  have hrange := address_at_ok_range ha
  rw [n_array_eq] at hrange
  apply wp_exists
  simp only [read_func_cb_sc2, read, target_inc, target_wrap,
    readMaxCount, wp_ite, wp_bind, wp_pure, wp_int_inc, wp_SendUartData, wp_buf_write,
    hsc, hcount, n_array_eq, size_t_of_int, INT_MAX, apply_ite State.uart,
    apply_ite State.readCount, ite_self, elapsed_mod]
  repeat' first | intro _ | apply And.intro
  all_goals first | omega | contradiction | simp_all

theorem notify_func_sc3_at_full (tm : Timing) (s : State) (conn : Option Nat)
    (bytes : List Nat) (v : Nat) (now : Nat) (a : String)
    (hidle : NotifyIdle s)
    (ha : address_at s.addressIdx = Except.ok a) (hsc : s.scenarioIdx = 3)
    (hack : s.ackIndicate = true) (hcount : s.indicateCount = 9)
    (hv : sys_le32 bytes = Except.ok v) :
    ∃ s', notify_func tm s conn (some bytes) now = Except.ok s' ∧
      s'.uart = s.uart ++ flush_records a 3 (Function.update s.indicateTimes 9 v) ∧
      s'.indicateCount = 0 := by
  have hrange := address_at_ok_range ha
  rw [n_array_eq] at hrange
  have hn : s.notifyCount = 0 := hidle (by omega)
  have hv64 : v % 2 ^ 64 = v := Nat.mod_eq_of_lt (by have := sys_le32_lt hv; omega)
  apply wp_exists
  simp only [notify_func, notify_func_sc3, notify_func_sc3_count, notify_func_sc4,
    advance_target, advance_target_sc4, target_inc, target_wrap, target_wrap_sc4,
    indicateMaxCount, notifyMaxCount, wp_ite, wp_bind, wp_pure, wp_int_inc, wp_SendUartData,
    wp_buf_write, hv, wp_ok,
    hsc, hcount, hack, hn, n_array_eq, size_t_of_int, INT_MAX, apply_ite State.uart,
    apply_ite State.indicateCount, ite_self, hv64]
  repeat' first | intro _ | apply And.intro
  all_goals first | omega | contradiction | simp_all

theorem notify_func_sc4_at_full (tm : Timing) (s : State) (conn : Option Nat)
    (bytes : List Nat) (v : Nat) (now : Nat) (a : String)
    (ha : address_at s.addressIdx = Except.ok a) (hsc : s.scenarioIdx = 4)
    (harmed : s.validNotify = true) (hcount : s.notifyCount = 9)
    (hv : sys_le32 bytes = Except.ok v) :
    ∃ s', notify_func tm s conn (some bytes) now = Except.ok s' ∧
      s'.uart = s.uart ++
        flush_records a 4 (Function.update s.notifyTimes 9 (tm.elapsed s.start_time now)) ∧
      s'.notifyCount = 0 := by
  have hrange := address_at_ok_range ha
  rw [n_array_eq] at hrange
  apply wp_exists
  simp only [notify_func, notify_func_sc3, notify_func_sc3_count, notify_func_sc4,
    advance_target, advance_target_sc4, target_inc, target_wrap, target_wrap_sc4,
    indicateMaxCount, notifyMaxCount, wp_ite, wp_bind, wp_pure, wp_int_inc, wp_SendUartData,
    wp_buf_write, hv, wp_ok,
    hsc, hcount, harmed, n_array_eq, size_t_of_int, INT_MAX, apply_ite State.uart,
    apply_ite State.notifyCount, ite_self, elapsed_mod]
  repeat' first | intro _ | apply And.intro
  all_goals first | omega | contradiction | simp_all

theorem run_observe {α : Type} {tm : Timing} {s0 : State} {l : List Event} {f : State → α}
    {a : α} (h : (run tm s0 l).toOption.map f = some a) :
    ∃ s, run tm s0 l = Except.ok s ∧ f s = a := by
  cases hr : run tm s0 l with
  | error x => rw [hr] at h; simp [Except.toOption] at h
  | ok s => rw [hr] at h; exact ⟨s, rfl, by simpa [Except.toOption] using h⟩

/-- C6, as the code has it. When the record that fills a scenario's buffer is
processed, with the target cursor on a configured peer `a`, the callback
returns normally, appends to the UART exactly the ten records of that buffer
in index order, each tagged with `a`, the current target at the flush (the
target before the rotation step), and with the scenario cursor at the flush,
and leaves the scenario's write cursor at 0.  Scenario 1: `disconnected` of
the active session at `connectionCount = 9`; scenario 2: `read_func_cb_sc2`
at `readCount = 9`; scenario 3: the acknowledging delivery to `notify_func` at
`indicateCount = 9`, in any state reached from the initial one; scenario 4:
an armed delivery to `notify_func` at `notifyCount = 9`. -/
theorem flush_at_fullness (tm : Timing) :
    (∀ (s : State) (c reason : Nat) (a : String),
      address_at s.addressIdx = Except.ok a → s.scenarioIdx = 1 →
      s.default_conn = some c → s.connectionCount = 9 →
      ∃ s', disconnected s (some c) reason = Except.ok s' ∧
        s'.uart = s.uart ++ flush_records a 1 s.connectionTimes ∧ s'.connectionCount = 0) ∧
    (∀ (s : State) (conn : Option Nat) (err : Nat) (data : Option (List Nat))
      (now_end now_start : Nat) (a : String),
      address_at s.addressIdx = Except.ok a → s.scenarioIdx = 2 → s.readCount = 9 →
      ∃ s', read_func_cb_sc2 tm s conn err data now_end now_start = Except.ok s' ∧
        s'.uart = s.uart ++
          flush_records a 2 (Function.update s.readTimes 9 (tm.elapsed s.start_time now_end)) ∧
        s'.readCount = 0) ∧
    (∀ (evs : List Event) (s : State) (conn : Option Nat) (bytes : List Nat) (v now : Nat)
      (a : String),
      run tm init evs = Except.ok s →
      address_at s.addressIdx = Except.ok a → s.scenarioIdx = 3 →
      s.ackIndicate = true → s.indicateCount = 9 → sys_le32 bytes = Except.ok v →
      ∃ s', notify_func tm s conn (some bytes) now = Except.ok s' ∧
        s'.uart = s.uart ++ flush_records a 3 (Function.update s.indicateTimes 9 v) ∧
        s'.indicateCount = 0) ∧
    (∀ (s : State) (conn : Option Nat) (bytes : List Nat) (v now : Nat) (a : String),
      address_at s.addressIdx = Except.ok a → s.scenarioIdx = 4 →
      s.validNotify = true → s.notifyCount = 9 → sys_le32 bytes = Except.ok v →
      ∃ s', notify_func tm s conn (some bytes) now = Except.ok s' ∧
        s'.uart = s.uart ++
          flush_records a 4 (Function.update s.notifyTimes 9 (tm.elapsed s.start_time now)) ∧
        s'.notifyCount = 0) ∧
    (∀ (a : String) (k : Int) (times : Samples), (flush_records a k times).length = 10) :=
  ⟨fun s c reason a ha hsc hconn hcount => disconnected_at_full s c reason a ha hsc hconn hcount,
    fun s conn err data now_end now_start a ha hsc hcount =>
      read_func_cb_sc2_at_full tm s conn err data now_end now_start a ha hsc hcount,
    fun evs s conn bytes v now a hrun ha hsc hack hcount hv =>
      notify_func_sc3_at_full tm s conn bytes v now a (reachable_invariant hrun).2 ha hsc hack
        hcount hv,
    fun s conn bytes v now a ha hsc harmed hcount hv =>
      notify_func_sc4_at_full tm s conn bytes v now a ha hsc harmed hcount hv,
    flush_records_length⟩

/-- The four flushes of C6 at concrete states: the tenth disconnect of the
first peer, the tenth read and the tenth armed notification at the last peer,
and the tenth acknowledged indication after a run that reaches scenario 3. -/
theorem flush_at_fullness_witness :
    (∃ s', disconnected sc1_full (some 1) 19 = Except.ok s' ∧
      s'.uart = sc1_full.uart ++ flush_records "C8:08:67:10:6A:25" 1 sc1_full.connectionTimes ∧
      s'.connectionCount = 0) ∧
    (∃ s', read_func_cb_sc2 unit_timing sc2_full (some 1) 0 none 5 0 = Except.ok s' ∧
      s'.uart = sc2_full.uart ++ flush_records "EE:FC:B1:9C:E3:A2" 2
        (Function.update sc2_full.readTimes 9 (unit_timing.elapsed sc2_full.start_time 5)) ∧
      s'.readCount = 0) ∧
    (∃ s s', run unit_timing init sc3_full_trace = Except.ok s ∧
      notify_func unit_timing s (some 1) (some [7, 0, 0, 0]) 0 = Except.ok s' ∧
      s'.uart = s.uart ++ flush_records "C8:08:67:10:6A:25" 3
        (Function.update s.indicateTimes 9 7) ∧
      s'.indicateCount = 0) ∧
    (∃ s', notify_func unit_timing sc4_last_sample (some 1) (some [1, 0, 0, 0]) 7 =
        Except.ok s' ∧
      s'.uart = sc4_last_sample.uart ++ flush_records "EE:FC:B1:9C:E3:A2" 4
        (Function.update sc4_last_sample.notifyTimes 9
          (unit_timing.elapsed sc4_last_sample.start_time 7)) ∧
      s'.notifyCount = 0) := by
  have h := flush_at_fullness unit_timing
  refine ⟨h.1 sc1_full 1 19 _ rfl rfl rfl rfl, h.2.1 sc2_full (some 1) 0 none 5 0 _ rfl rfl rfl,
    ?_, h.2.2.2.1 sc4_last_sample (some 1) [1, 0, 0, 0] 1 7 _ rfl rfl rfl rfl rfl⟩
  have hdec : (run unit_timing init sc3_full_trace).toOption.map
      (fun s => (s.addressIdx, s.scenarioIdx, s.ackIndicate, s.indicateCount)) =
      some (0, 3, true, 9) := by decide
  obtain ⟨s, hs, hobs⟩ := run_observe hdec
  simp only [Prod.mk.injEq] at hobs
  obtain ⟨s', h1, h2, h3⟩ :=
    h.2.2.1 sc3_full_trace s (some 1) [7, 0, 0, 0] 7 0 "C8:08:67:10:6A:25" hs
      (by rw [hobs.1]; rfl) hobs.2.1 hobs.2.2.1 hobs.2.2.2 rfl
  exact ⟨s, s', hs, h1, h2, h3⟩

/-- C6 as stated fails on the peer tag.  Five successful attempts to the first
peer leave their durations 10..14 in cells 0..4 while the target cursor is 0
and nothing is written.  Fifty strangers then move the target cursor to the
second peer without touching the buffer, and five attempts to the second peer
fill it: the tenth `disconnected` arrives with target cursor 1 and cursor 9
and writes ten records that are all tagged with the second peer, although the
first five samples were collected while the first peer was the target. -/
theorem flush_tags_skipped_peer_samples :
    (∃ s : State, run unit_timing init skip_first_half = Except.ok s ∧
      connection_view s = (0, 5, [10, 11, 12, 13, 14, 0, 0, 0, 0, 0], [])) ∧
    (∃ s s' : State,
      run unit_timing init (skip_first_half ++ skip_second_half) = Except.ok s ∧
      connection_view s = (1, 9, [10, 11, 12, 13, 14, 15, 16, 17, 18, 19], []) ∧
      step unit_timing s (Event.disconnected (some 10) 22) = Except.ok s' ∧
      connection_view s' = (2, 0, [10, 11, 12, 13, 14, 15, 16, 17, 18, 19],
        flush_records "F7:3E:E2:EA:4B:AC" 1 (fun i => 10 + i.val))) :=
  ⟨run_observe (by decide), run_then_step (by decide) (by decide)⟩

/-- The scenario tag of a flush is likewise the scenario cursor at the flush:
five read completions in scenario 1 leave five samples in the read buffer,
forty connection attempts move the scenario cursor to 2, and the fifth read
completion after that, arriving with cursor 9, flushes ten records tagged 2. -/
theorem read_flush_tags_flush_scenario :
    (∃ s : State, run unit_timing init (List.replicate 5 read_completed) = Except.ok s ∧
      read_view s = (1, 5, [5, 5, 5, 5, 5, 0, 0, 0, 0, 0], [])) ∧
    (∃ s s' : State,
      run unit_timing init (List.replicate 5 read_completed ++ attempts steady_attempts 40 ++
        List.replicate 4 read_completed) = Except.ok s ∧
      read_view s = (2, 9, [5, 5, 5, 5, 5, 0, 5, 5, 5, 0], []) ∧
      step unit_timing s read_completed = Except.ok s' ∧
      read_view s' = (2, 0, [5, 5, 5, 5, 5, 0, 5, 5, 5, 5], [2, 2, 2, 2, 2, 2, 2, 2, 2, 2])) :=
  ⟨run_observe (by decide), run_then_step (by decide) (by decide)⟩

/-! ## C7: a full cycle -/


/-- C7 fails on the last conjunct.  The successful event sequence for all four
scenarios and all four peers runs to completion; after the tenth notification
of the last peer the scenario cursor is back at 1, the target cursor at 0 and
all four write cursors are 0, but the disconnect that ends that session is
counted by `disconnected` as a scenario 1 connection and leaves
`connectionCount = 1`. -/
theorem full_cycle_leaves_connection_sample :
    ∃ s s' : State,
      run unit_timing init full_cycle_open = Except.ok s ∧
      cycle_view s = (1, 0, 0, 0, 0, 0) ∧
      step unit_timing s (close_session 3) = Except.ok s' ∧
      cycle_view s' = (1, 0, 1, 0, 0, 0) :=
  run_then_step (by decide) (by decide)

/-! ## C8: scenario 1 end to end -/

theorem strncmp_peer {i : Int} {address : String} (h : address_at i = Except.ok address) :
    strncmp address.toList (peer_addr_str address).toList 17 = 0 := by
  have hr := address_at_ok_range h
  rw [n_array_eq] at hr
  have : i = 0 ∨ i = 1 ∨ i = 2 ∨ i = 3 := by omega
  rcases this with h' | h' | h' | h' <;> subst h' <;>
    (simp only [address_at, addressArr] at h; cases h; decide)

theorem device_found_accept (s : State) (address : String) (x : Attempt)
    (hconn : s.default_conn = none) (ha : address_at s.addressIdx = Except.ok address) :
    device_found s (peer_addr_str address) (-40) BT_GAP_ADV_TYPE_ADV_IND x.adv_time 0 0 x.conn =
      Except.ok (device_found_connect s (peer_addr_str address) x.adv_time 0 0 x.conn) := by
  have h := device_found_passes s
    ⟨peer_addr_str address, -40, BT_GAP_ADV_TYPE_ADV_IND, x.adv_time, 0, 0, x.conn⟩ address
    hconn (Or.inl rfl) (show (-90 : Int) ≤ -40 by decide) ha
  simp only at h
  rw [h, if_neg (not_not.2 (strncmp_peer ha))]
  rfl

theorem update_apply_int (buf : Samples) (c : Int) (h : 0 ≤ c ∧ c < 10) (v : Nat)
    (i : Fin 10) :
    Function.update buf ⟨c.toNat, by omega⟩ v i = if (i.val : Int) = c then v else buf i := by
  rw [Function.update_apply]
  by_cases hi : (i.val : Int) = c
  · rw [if_pos hi, if_pos]
    apply Fin.ext
    simp only
    omega
  · rw [if_neg hi, if_neg]
    intro h'
    apply hi
    rw [h']
    simp only
    omega

theorem attempt_spec (tm : Timing) (s : State) (address : String) (x : Attempt)
    (hconn : s.default_conn = none) (hsc : s.scenarioIdx = 1)
    (ha : address_at s.addressIdx = Except.ok address)
    (hc : 0 ≤ s.connectionCount ∧ s.connectionCount < 10) :
    ∃ s', run tm s (attempt_events address x) = Except.ok s' ∧ s'.default_conn = none ∧
      (∀ i : Fin 10, s'.connectionTimes i =
        if (i.val : Int) = s.connectionCount then tm.elapsed x.adv_time x.conn_time
        else s.connectionTimes i) ∧
      (s.connectionCount < 9 → s'.connectionCount = s.connectionCount + 1 ∧
        s'.uart = s.uart ∧ s'.addressIdx = s.addressIdx ∧ s'.scenarioIdx = 1) ∧
      (s.connectionCount = 9 → s'.connectionCount = 0 ∧
        s'.uart = s.uart ++ flush_records address 1 s'.connectionTimes ∧
        (s.addressIdx < 3 → s'.addressIdx = s.addressIdx + 1 ∧ s'.scenarioIdx = 1) ∧
        (s.addressIdx = 3 → s'.addressIdx = 0 ∧ s'.scenarioIdx = 2)) := by
  have hrange := address_at_ok_range ha
  rw [n_array_eq] at hrange
  apply wp_exists
  simp only [attempt_events, run, step, device_found_accept s address x hconn ha,
    connected, connected_discover, device_found_connect,
    disconnected, disconnected_sc1, advance_target, target_inc, target_wrap, start_scan,
    connectionMaxCount, wp_ite, wp_bind, wp_pure, wp_ok, wp_int_inc, wp_SendUartData,
    wp_buf_write, elapsed_mod,
    hsc, hconn, n_array_eq, size_t_of_int, INT_MAX, apply_ite State.uart,
    apply_ite State.connectionCount, apply_ite State.scenarioIdx, apply_ite State.addressIdx,
    apply_ite State.default_conn, apply_ite State.connectionTimes, ite_self,
    ne_eq, not_true_eq_false, if_false, if_true, not_false_eq_true]
  repeat' first | intro _ | apply And.intro
  all_goals first | omega | contradiction | exact update_apply_int _ _ (by assumption) _ _ | simp_all

theorem address_at_getD (p : Nat) (hp : p < 4) :
    address_at (p : Int) = Except.ok (addressArr.getD p "") := by
  have : p = 0 ∨ p = 1 ∨ p = 2 ∨ p = 3 := by omega
  rcases this with h | h | h | h <;> subst h <;> rfl

theorem sc1_progress (tm : Timing) (a : Nat → Attempt) :
    ∀ n, n ≤ 40 → ∃ s, run tm init (attempts a n) = Except.ok s ∧ Sc1Progress tm a n s := by
  intro n
  induction n with
  | zero =>
    intro _
    refine ⟨init, rfl, rfl, rfl, rfl, rfl, ?_, rfl⟩
    intro i hi
    simp at hi
  | succ n ih =>
    intro hn
    obtain ⟨s, hrun, hconn, hsc, haddr, hcount, hbuf, huart⟩ := ih (by omega)
    have hn40 : n < 40 := by omega
    rw [if_pos hn40] at hsc haddr
    have hp : n / 10 < 4 := by omega
    have ha : address_at s.addressIdx = Except.ok (addressArr.getD (n / 10) "") := by
      rw [haddr]
      exact address_at_getD _ hp
    obtain ⟨s', hrun', hconn', hbuf', hlow, hfull⟩ :=
      attempt_spec tm s (addressArr.getD (n / 10) "") (a n) hconn hsc ha
        (by rw [hcount]; omega)
    refine ⟨s', ?_, ?_⟩
    · rw [attempts, run_append, hrun]
      exact hrun'
    · by_cases h9 : n % 10 = 9
      · obtain ⟨hc0, hu, hnext, hlast⟩ := hfull (by rw [hcount, h9]; rfl)
        have hdiv : (n + 1) / 10 = n / 10 + 1 := by omega
        have hmod : (n + 1) % 10 = 0 := by omega
        refine ⟨hconn', ?_, ?_, ?_, ?_, ?_⟩
        · by_cases h40 : n + 1 < 40
          · rw [if_pos h40]
            exact (hnext (by rw [haddr]; omega)).2
          · rw [if_neg h40]
            exact (hlast (by rw [haddr]; omega)).2
        · by_cases h40 : n + 1 < 40
          · rw [if_pos h40, (hnext (by rw [haddr]; omega)).1, haddr, hdiv]
            push_cast
            rfl
          · rw [if_neg h40]
            exact (hlast (by rw [haddr]; omega)).1
        · rw [hc0, hmod]
          rfl
        · intro i hi
          omega
        · rw [hu, huart, hdiv, sc1_flushes]
          congr 2
          funext i
          rw [hbuf' i]
          by_cases hi : (i.val : Int) = s.connectionCount
          · rw [if_pos hi]
            unfold attempt_duration
            have : 10 * (n / 10) + i.val = n := by
              rw [hcount] at hi
              omega
            rw [this]
          · rw [if_neg hi]
            apply hbuf
            rw [hcount] at hi
            have := i.isLt
            omega
      · obtain ⟨hc1, hu, haddr', hsc'⟩ := hlow (by rw [hcount]; omega)
        have hdiv : (n + 1) / 10 = n / 10 := by omega
        have hmod : (n + 1) % 10 = n % 10 + 1 := by omega
        have h40 : n + 1 < 40 := by omega
        refine ⟨hconn', ?_, ?_, ?_, ?_, ?_⟩
        · rw [if_pos h40]
          exact hsc'
        · rw [if_pos h40, haddr', haddr, hdiv]
        · rw [hc1, hcount, hmod]
          push_cast
          rfl
        · intro i hi
          rw [hbuf' i, hdiv]
          by_cases hi' : (i.val : Int) = s.connectionCount
          · rw [if_pos hi']
            unfold attempt_duration
            have : 10 * (n / 10) + i.val = n := by
              rw [hcount] at hi'
              omega
            rw [this]
          · rw [if_neg hi']
            apply hbuf
            rw [hcount] at hi'
            omega
        · rw [hu, huart, hdiv]

/-- C8. From the initial state, forty consecutive successful connection
attempts (advertisement of the current target accepted, `connected` without
error, `disconnected`), with arbitrary timer readings and connection handles,
all run to completion.  After `n < 40` of them the scenario cursor is still 1,
the target cursor is `n / 10`, `n % 10` samples are buffered and the UART
holds the flushes of the first `n / 10` peers.  After the fortieth the
scenario cursor is 2, the target cursor 0, the buffer empty, and the UART
holds four flushes of ten records, one per peer in list order, carrying the
forty measured durations in order. -/
theorem scenario1_end_to_end (tm : Timing) (a : Nat → Attempt) :
    (∀ n, n < 40 → ∃ s, run tm init (attempts a n) = Except.ok s ∧
      s.scenarioIdx = 1 ∧ s.addressIdx = ((n / 10 : Nat) : Int) ∧
      s.connectionCount = ((n % 10 : Nat) : Int) ∧ s.uart = sc1_flushes tm a (n / 10)) ∧
    (∃ s, run tm init (attempts a 40) = Except.ok s ∧
      s.scenarioIdx = 2 ∧ s.addressIdx = 0 ∧ s.connectionCount = 0 ∧
      s.uart =
        flush_records "C8:08:67:10:6A:25" 1 (fun i => attempt_duration tm a i) ++
        flush_records "F7:3E:E2:EA:4B:AC" 1 (fun i => attempt_duration tm a (10 + i)) ++
        flush_records "F5:E6:A8:F0:CC:21" 1 (fun i => attempt_duration tm a (20 + i)) ++
        flush_records "EE:FC:B1:9C:E3:A2" 1 (fun i => attempt_duration tm a (30 + i)) ∧
      s.uart.length = 40) := by
  constructor
  · intro n hn
    obtain ⟨s, hrun, _, hsc, haddr, hcount, _, huart⟩ := sc1_progress tm a n (by omega)
    rw [if_pos hn] at hsc haddr
    exact ⟨s, hrun, hsc, haddr, hcount, huart⟩
  · obtain ⟨s, hrun, _, hsc, haddr, hcount, _, huart⟩ := sc1_progress tm a 40 (by omega)
    have hu : s.uart =
        flush_records "C8:08:67:10:6A:25" 1 (fun i => attempt_duration tm a i) ++
        flush_records "F7:3E:E2:EA:4B:AC" 1 (fun i => attempt_duration tm a (10 + i)) ++
        flush_records "F5:E6:A8:F0:CC:21" 1 (fun i => attempt_duration tm a (20 + i)) ++
        flush_records "EE:FC:B1:9C:E3:A2" 1 (fun i => attempt_duration tm a (30 + i)) := by
      rw [huart]
      simp [sc1_flushes, addressArr]
    refine ⟨s, hrun, hsc, haddr, hcount, hu, ?_⟩
    rw [hu]
    simp [flush_records_length]

/-- Thirty-nine regular attempts leave the controller in scenario 1 at the
last peer with nine samples buffered; the fortieth completes the scenario. -/
theorem scenario1_end_to_end_witness :
    (∃ s, run unit_timing init (attempts steady_attempts 39) = Except.ok s ∧
      s.scenarioIdx = 1 ∧ s.addressIdx = ((39 / 10 : Nat) : Int) ∧
      s.connectionCount = ((39 % 10 : Nat) : Int) ∧
      s.uart = sc1_flushes unit_timing steady_attempts (39 / 10)) ∧
    (∃ s, run unit_timing init (attempts steady_attempts 40) = Except.ok s ∧
      s.scenarioIdx = 2 ∧ s.addressIdx = 0 ∧ s.uart.length = 40) :=
  ⟨(scenario1_end_to_end unit_timing steady_attempts).1 39 (by decide),
    match (scenario1_end_to_end unit_timing steady_attempts).2 with
    | ⟨s, h1, h2, h3, _, _, h6⟩ => ⟨s, h1, h2, h3, h6⟩⟩

/-! ## C9: the scenario cursor -/

/-- C9, as the code has it. A callback started with the scenario cursor in
1..4 writes only records whose scenario identifier is in 1..4, and, unless it
is a read completion arriving while the cursor is 4, it leaves the cursor in
1..4, either unchanged or at the cyclic successor (4 goes to 1). -/
theorem scenario_cursor_stays_valid (tm : Timing) (s s' : State) (e : Event)
    (hv : 1 ≤ s.scenarioIdx ∧ s.scenarioIdx ≤ 4) (hstep : step tm s e = Except.ok s') :
    (∃ l, s'.uart = s.uart ++ l ∧ ∀ r ∈ l, 1 ≤ r.scenario ∧ r.scenario ≤ 4) ∧
    ((e.is_read_completion → s.scenarioIdx ≠ 4) →
      (1 ≤ s'.scenarioIdx ∧ s'.scenarioIdx ≤ 4) ∧
      (s'.scenarioIdx = s.scenarioIdx ∨ s'.scenarioIdx = next_scenario s.scenarioIdx)) := by
  have h := wp_of_eq_ok (step_wp tm s e) hstep
  exact ⟨⟨new_records s s', h.1.2.2.1, h.1.2.2.2 hv⟩, fun hr => h.2.1 hv hr⟩

/-- A notification that completes scenario 4 for the last peer writes ten
records tagged 4 and takes the scenario cursor from 4 to its cyclic successor
1. -/
theorem scenario_cursor_stays_valid_witness :
    ∃ s' : State,
      (1 ≤ sc4_last_sample.scenarioIdx ∧ sc4_last_sample.scenarioIdx ≤ 4) ∧
      step unit_timing sc4_last_sample (Event.notify_func (some 1) (some [1, 0, 0, 0]) 7) =
        Except.ok s' ∧
      (∃ l, s'.uart = sc4_last_sample.uart ++ l ∧
        ∀ r ∈ l, 1 ≤ r.scenario ∧ r.scenario ≤ 4) ∧
      ((1 ≤ s'.scenarioIdx ∧ s'.scenarioIdx ≤ 4) ∧
        (s'.scenarioIdx = sc4_last_sample.scenarioIdx ∨
          s'.scenarioIdx = next_scenario sc4_last_sample.scenarioIdx)) ∧
      s'.scenarioIdx = 1 :=
  ⟨_, by decide, rfl,
    (scenario_cursor_stays_valid unit_timing sc4_last_sample _
      (Event.notify_func (some 1) (some [1, 0, 0, 0]) 7) (by decide) rfl).1,
    (scenario_cursor_stays_valid unit_timing sc4_last_sample _
      (Event.notify_func (some 1) (some [1, 0, 0, 0]) 7) (by decide) rfl).2
      (fun h => False.elim h), rfl⟩

/-- C9 as stated fails: 159 read completions from the initial state leave the
scenario cursor at 4, and the next read completion moves it to 5. -/
theorem read_completion_leaves_scenarios :
    ∃ s s' : State,
      run unit_timing init (List.replicate 159 read_completed) = Except.ok s ∧
      s.scenarioIdx = 4 ∧
      step unit_timing s read_completed = Except.ok s' ∧
      s'.scenarioIdx = 5 :=
  run_then_step (f := State.scenarioIdx) (by decide) (by decide)

/-! ## C10: a second disconnect -/

theorem disconnected_default_conn (s : State) (conn : Option Nat) (reason : Nat) :
    wp (disconnected s conn reason) (fun s' => conn = s.default_conn → s'.default_conn = none)
      (fun _ => True) := by
  simp only [disconnected, disconnected_sc1, advance_target, target_inc, target_wrap, start_scan,
    connectionMaxCount, wp_ite, wp_bind, wp_pure, wp_int_inc, wp_SendUartData]
  repeat' first | intro _ | apply And.intro
  all_goals first | trivial | contradiction | simp_all

/-- C10. A `disconnected` event for a non-null session handle that arrives
while no session is active (`default_conn` is null) changes nothing; hence
after one `disconnected` event for a handle, a second one for the same handle
leaves the state exactly as the first one left it. -/
theorem disconnected_idempotent (s : State) (conn : Nat) (reason reason2 : Nat) :
    (s.default_conn = none → disconnected s (some conn) reason = Except.ok s) ∧
    (∀ s1, disconnected s (some conn) reason = Except.ok s1 →
      disconnected s1 (some conn) reason2 = Except.ok s1) := by
  have hnull : ∀ t : State, t.default_conn ≠ some conn →
      ∀ r, disconnected t (some conn) r = Except.ok t := by
    intro t ht r
    unfold disconnected
    rw [if_pos (fun h => ht h.symm)]
    rfl
  refine ⟨fun h => hnull s (by rw [h]; simp) reason, ?_⟩
  intro s1 h1
  by_cases hc : s.default_conn = some conn
  · apply hnull
    have hw := wp_of_eq_ok (Q := fun s' => some conn = s.default_conn → s'.default_conn = none)
      (disconnected_default_conn s (some conn) reason) h1
    rw [hw hc.symm]
    simp
  · rw [hnull s hc reason] at h1
    cases h1
    exact hnull s hc reason2

/-- A second disconnect for session 1, without and after a first one. -/
theorem disconnected_idempotent_witness :
    disconnected init (some 1) 19 = Except.ok init ∧
    ∃ s1, disconnected session_open (some 1) 19 = Except.ok s1 ∧
      disconnected s1 (some 1) 22 = Except.ok s1 :=
  ⟨(disconnected_idempotent init 1 19 19).1 rfl, _, rfl,
    (disconnected_idempotent session_open 1 19 22).2 _ rfl⟩

/-! ## C11: start and ack indications alternate -/

/-- In scenario 3 a delivery leaves the notify buffer, its cursor and the armed
flag unchanged unless it moves the scenario cursor while the flag is set. -/
theorem notify_func_sc3_frame (tm : Timing) (s s' : State) (conn : Option Nat)
    (data : Option (List Nat)) (now : Nat) (hsc : s.scenarioIdx = 3)
    (h : notify_func tm s conn data now = Except.ok s')
    (hkeep : s'.scenarioIdx = 3 ∨ s.validNotify = false) :
    s'.notifyTimes = s.notifyTimes ∧ s'.notifyCount = s.notifyCount ∧
      s'.validNotify = s.validNotify := by
  have hw : wp (notify_func tm s conn data now)
      (fun s' => s'.scenarioIdx = 3 ∨ s.validNotify = false →
        s'.notifyTimes = s.notifyTimes ∧ s'.notifyCount = s.notifyCount ∧
          s'.validNotify = s.validNotify) (fun _ => True) := by
    cases data with
    | none =>
      simp only [notify_func, wp_pure]
      intro _
      exact ⟨trivial, trivial, trivial⟩
    | some bytes =>
      simp only [notify_func, notify_func_sc3, notify_func_sc3_count, notify_func_sc4,
        advance_target, advance_target_sc4, target_inc, target_wrap, target_wrap_sc4,
        indicateMaxCount, notifyMaxCount, wp_ite, wp_bind, wp_pure, wp_int_inc,
        wp_SendUartData, wp_buf_write, wp_sys_le32, hsc, n_array_eq, size_t_of_int, INT_MAX]
      repeat' first | intro _ | apply And.intro
      all_goals first | rfl | trivial | omega | contradiction | simp_all
  exact wp_of_eq_ok hw h hkeep

/-- C12 fails at the delivery that completes scenario 3 for the last peer
while the armed flag is set.  The successful event sequence followed by an
edge on the GPIO line reaches scenario 3, target 3, with `notifyCount = 0`,
`validNotify` true and `notifyTimes[0] = 0`; the tenth ack then moves the
rotation to scenario 4, target 0, and the same call records a notify sample:
`notifyTimes[0] = 40`, `notifyCount = 1`, `validNotify` false. -/
theorem last_indication_records_notify_sample :
    ∃ s s' : State,
      run unit_timing init armed_last_indication = Except.ok s ∧
      notify_view s = (3, 3, 0, true, 0) ∧
      step unit_timing s (Event.notify_func (some 4) (some [7, 0, 0, 0]) 6040) =
        Except.ok s' ∧
      notify_view s' = (4, 0, 1, false, 40) :=
  run_then_step (by decide) (by decide)

end Central
